import Mathlib

/-!
The claude-orchestra control center: the view state machine.

A shallow embedding of `internal/ui` (`MainModel`, `InitialModel`,
`MainModel.Update`, `tasksToItems`) and of the message and command types of
`internal/orchestrator`, together with the pieces of the Go standard library
(`fmt.Sprintf` with `%d`, `fmt.Sscanf` with the format `#%d`) that `Update`
relies on.

The bubbles widgets (`list.Model`, `textinput.Model`, `spinner.Model`) are
third-party code.  Their plain accessors are modelled on a record of the
state they expose; their own `Update` functions are taken as parameters
(`Widgets`).
-/

namespace Orchestra

/-! ## Go integers and `fmt` -/

/-- Go `int` arithmetic is 64-bit two's complement: the representative of `x`
in `[-2^63, 2^63)`. -/
def wrapInt (x : Int) : Int := (x + 2 ^ 63) % 2 ^ 64 - 2 ^ 63

/-- The verb `%d` of `fmt.Sprintf` on an `int`: decimal digits, with a leading
minus sign for a negative number. -/
def fmtD : Int → String
  | Int.ofNat n => String.mk (Nat.toDigits 10 n)
  | Int.negSucc n => "-" ++ String.mk (Nat.toDigits 10 (n + 1))

/-- The space table of package `fmt` (`isSpace` in `fmt/scan.go`). -/
def isSpace (c : Char) : Bool :=
  let r := c.toNat
  decide ((0x09 ≤ r ∧ r ≤ 0x0d) ∨ r = 0x20 ∨ r = 0x85 ∨ r = 0xa0 ∨ r = 0x1680 ∨
    (0x2000 ≤ r ∧ r ≤ 0x200a) ∨ (0x2028 ≤ r ∧ r ≤ 0x2029) ∨ r = 0x202f ∨
    r = 0x205f ∨ r = 0x3000)

/-- The method `ss.SkipSpace` for `Sscanf` (newlines are not spaces there):
`none` is the error "unexpected newline", otherwise the remaining input. -/
def SkipSpace : List Char → Option (List Char)
  | [] => some []
  | c :: rest =>
    if c = '\r' ∧ rest.head? = some '\n' then SkipSpace rest
    else if c = '\n' then none
    else if isSpace c then SkipSpace rest
    else some (c :: rest)

/-- The characters `ss.scanNumber` accepts for the verb `%d`: the constant
`decimalDigits`, "0123456789", that `ss.getBase` returns for it. -/
def isScanDigit (c : Char) : Bool := c.isDigit

/-- Value of a decimal digit character. -/
def digitVal (c : Char) : Nat := c.toNat - '0'.toNat

/-- The value `strconv.ParseUint` accumulates over a string of decimal
digits. -/
def digitsValue (s : List Char) : Nat := s.foldl (fun acc c => acc * 10 + digitVal c) 0

/-- The function `strconv.ParseUint(s, 10, 64)`: the string must be non-empty,
every character must be a decimal digit and the value must fit 64 bits;
`none` is any error. -/
def ParseUint (s : List Char) : Option Nat :=
  if s = [] then none
  else if s.all Char.isDigit then
    let v := digitsValue s
    if v < 2 ^ 64 then some v else none
  else none

/-- The function `strconv.ParseInt(s, 10, 64)`: an optional sign, then
`ParseUint`, then the signed range check; `none` is any error. -/
def ParseInt (s : List Char) : Option Int :=
  match s with
  | [] => none
  | '+' :: r =>
    match ParseUint r with
    | some un => if un ≥ 2 ^ 63 then none else some (Int.ofNat un)
    | none => none
  | '-' :: r =>
    match ParseUint r with
    | some un => if un > 2 ^ 63 then none else some (- Int.ofNat un)
    | none => none
  | r =>
    match ParseUint r with
    | some un => if un ≥ 2 ^ 63 then none else some (Int.ofNat un)
    | none => none

/-- The method `ss.scanInt` for the verb `d` and a 64-bit `int`: skip space,
refuse end of input, accept one sign, collect the longest run of digit
characters (at least one), and hand the token to `strconv.ParseInt`.
`none` is any error. -/
def scanInt (input : List Char) : Option Int :=
  match SkipSpace input with
  | none => none
  | some [] => none
  | some (c :: rest) =>
    let sign : List Char := if c = '+' ∨ c = '-' then [c] else []
    let r := if c = '+' ∨ c = '-' then rest else c :: rest
    let digits := r.takeWhile isScanDigit
    if digits = [] then none else ParseInt (sign ++ digits)

/-- The statement pair `var id int; fmt.Sscanf(title, "#%d", &id)`: the value
of `id` afterwards.  The literal `#` of the format must match the first
character of the input; then space is skipped and an integer is scanned.  On
any error `id` keeps its zero value. -/
def sscanfID (title : String) : Int :=
  match title.data with
  | '#' :: rest =>
    match SkipSpace rest with
    | none => 0
    | some r => (scanInt r).getD 0
  | _ => 0

/-! ## `internal/orchestrator`: tasks, messages, commands -/

/-- The record `orchestrator.Task`. -/
structure Task where
  ID : Int
  Description : String
  Status : String
  Agent : String
  Priority : String
  deriving DecidableEq, Repr

/-- The commands (`tea.Cmd`) the program can hand to the runtime, as data. -/
inductive Cmd where
  | Quit
  | Blink
  | FetchTasksCmd
  | AddTaskCmd (desc : String)
  | StartTaskCmd (id : Int)
  | CompleteTaskCmd (id : Int)
  | StopTaskCmd (id : Int)
  | RemoveTaskCmd (id : Int)
  | LogsTuiCmd
  | component (tag : Nat)
  deriving DecidableEq, Repr

/-- The argument vector of the external-tool invocation a command performs
(`exec.Command("bash", scriptPath, verb, arg)` in `client.go`), if it is one
of the five mutating commands. -/
def Cmd.argv (scriptPath : String) : Cmd → Option (List String)
  | .AddTaskCmd desc => some ["bash", scriptPath, "add", desc]
  | .StartTaskCmd id => some ["bash", scriptPath, "start", fmtD id]
  | .CompleteTaskCmd id => some ["bash", scriptPath, "complete", fmtD id]
  | .StopTaskCmd id => some ["bash", scriptPath, "stop", fmtD id]
  | .RemoveTaskCmd id => some ["bash", scriptPath, "remove-task", fmtD id]
  | _ => none

/-- The function `tea.Batch`: the commands of the batch, nil commands dropped. -/
def Batch (cmds : List (Option Cmd)) : List Cmd := cmds.reduceOption

/-! ## bubbletea messages -/

/-- The key types of bubbletea that matter to this program. -/
inductive KeyType where
  | KeyRunes | KeyEsc | KeyEnter | KeyTab | KeyBackspace | KeyCtrlC
  | KeySpace | KeyUp | KeyDown | KeyLeft | KeyRight | KeyDelete
  deriving DecidableEq, Repr

/-- The table `keyNames` of bubbletea, on the key types above. -/
def keyNames : KeyType → String
  | .KeyRunes => "runes"
  | .KeyEsc => "esc"
  | .KeyEnter => "enter"
  | .KeyTab => "tab"
  | .KeyBackspace => "backspace"
  | .KeyCtrlC => "ctrl+c"
  | .KeySpace => " "
  | .KeyUp => "up"
  | .KeyDown => "down"
  | .KeyLeft => "left"
  | .KeyRight => "right"
  | .KeyDelete => "delete"

/-- The message `tea.KeyMsg` (the field `Type` is written `Type_`). -/
structure KeyMsg where
  Type_ : KeyType
  Runes : List Char := []
  Alt : Bool := false
  deriving DecidableEq, Repr

/-- The method `KeyMsg.String`. -/
def KeyMsg.String (k : KeyMsg) : String :=
  (if k.Alt then "alt+" else "") ++
    (if k.Type_ = .KeyRunes then String.mk k.Runes else keyNames k.Type_)

/-- The message `spinner.TickMsg`. -/
structure TickMsg where
  ID : Int := 0
  tag : Int := 0
  deriving DecidableEq, Repr

/-- The messages `MainModel.Update` distinguishes in its type switch; `error`
carries the text of the Go error, `other` is any message of another type. -/
inductive Msg where
  | key (k : KeyMsg)
  | windowSize (Width Height : Int)
  | tick (t : TickMsg)
  | taskLoad (tasks : List Task)
  | error (e : String)
  | other (tag : Nat)
  deriving DecidableEq, Repr

/-! ## The widgets -/

/-- The list entry `item` of `item.go`. -/
structure Item where
  title : String
  desc : String
  deriving DecidableEq, Repr

/-- The type `list.FilterState`. -/
inductive FilterState where
  | Unfiltered | Filtering | FilterApplied
  deriving DecidableEq, Repr

/-- The state of a `list.Model` this program observes: its items, the items
that pass the filter, the filter state and the index of the selected item. -/
structure ListModel where
  Title : String := "List"
  showHelp : Bool := true
  items : List Item := []
  filteredItems : List Item := []
  filterState : FilterState := .Unfiltered
  index : Nat := 0
  deriving DecidableEq, Repr

/-- The method `list.Model.Items`. -/
def ListModel.Items (l : ListModel) : List Item := l.items

/-- The method `list.Model.FilterState`. -/
def ListModel.FilterState (l : ListModel) : FilterState := l.filterState

/-- The method `list.Model.VisibleItems`. -/
def ListModel.VisibleItems (l : ListModel) : List Item :=
  if l.filterState ≠ .Unfiltered then l.filteredItems else l.items

/-- The method `list.Model.SelectedItem`: the visible item under the cursor,
`none` (nil) when the index is out of range. -/
def ListModel.SelectedItem (l : ListModel) : Option Item :=
  l.VisibleItems.get? l.index

/-- The method `list.Model.SetItems`: replaces the items, drops the filtered
items while a filter is in use, and re-paginates, which brings the cursor
back into range: an index past the end moves to the last visible item (to 0
when no item is visible). -/
def ListModel.SetItems (l : ListModel) (i : List Item) : ListModel :=
  let l1 : ListModel := { l with
    items := i
    filteredItems := if l.filterState ≠ .Unfiltered then [] else l.filteredItems }
  { l1 with index := min l.index (l1.VisibleItems.length - 1) }

/-- The state of a `textinput.Model` this program observes. -/
structure TextInput where
  Placeholder : String := ""
  CharLimit : Nat := 0
  Width : Nat := 0
  value : String := ""
  pos : Nat := 0
  focus : Bool := false
  deriving DecidableEq, Repr

/-- The method `textinput.Model.Value`. -/
def TextInput.Value (t : TextInput) : String := t.value

/-- The method `textinput.Model.SetValue`, up to the widget's replacement of
control characters: the text cut at `CharLimit`, cursor at its end. -/
def TextInput.SetValue (t : TextInput) (s : String) : TextInput :=
  let v := if 0 < t.CharLimit ∧ t.CharLimit < s.length
    then String.mk (s.data.take t.CharLimit) else s
  { t with value := v, pos := v.length }

/-- The method `textinput.Model.Focus`. -/
def TextInput.Focus (t : TextInput) : TextInput := { t with focus := true }

/-- The method `textinput.Model.Blur`. -/
def TextInput.Blur (t : TextInput) : TextInput := { t with focus := false }

/-- The state of a `spinner.Model`. -/
structure Spinner where
  frame : Nat := 0
  tag : Nat := 0
  deriving DecidableEq, Repr

/-- The `Update` functions of the three widgets, which this program calls
but does not define. -/
structure Widgets where
  listUpdate : ListModel → Msg → ListModel × Option Cmd
  inputUpdate : TextInput → Msg → TextInput × Option Cmd
  spinnerUpdate : Spinner → TickMsg → Spinner × Option Cmd

/-! ## `internal/ui`: the model -/

/-- The record `MainModel` of `model.go`; `Err` is the text of the error. -/
structure MainModel where
  Tab : Int := 0
  InputMode : Bool := false
  Quitting : Bool := false
  Loaded : Bool := false
  Width : Int := 0
  Height : Int := 0
  Err : Option String := none
  Tasks : List Task := []
  events : List String := []
  pendingList : ListModel := {}
  activeList : ListModel := {}
  Spinner : Spinner := {}
  Input : TextInput := {}
  deriving DecidableEq, Repr

/-- The function `InitialModel` of `model.go`. -/
def InitialModel : MainModel :=
  let s : Spinner := {}
  let ti : TextInput := { Placeholder := "Task description...", CharLimit := 156, Width := 50 }
  let pItems : List Item := [
    { title := "Fix TUI Layout", desc := "Resolve ncurses resizing issues" },
    { title := "Add Auth Logic", desc := "Integrate Supabase Auth" }]
  let pList : ListModel := { items := pItems, Title := "Pending Tasks", showHelp := false }
  let aItems : List Item := [{ title := "Refactor API", desc := "Optimize RPC calls" }]
  let aList : ListModel := { items := aItems, Title := "Active / Recent", showHelp := false }
  { Tab := 0, Spinner := s, Input := ti, pendingList := pList, activeList := aList }

/-- The title `fmt.Sprintf("%s#%d %s", pfx, t.ID, t.Agent)` that
`tasksToItems` gives a task. -/
def taskTitle (t : Task) : String :=
  (if t.Status = "failed" then "[FAILED] " else "") ++ "#" ++ fmtD t.ID ++ " " ++ t.Agent

/-- The inner loop of `tasksToItems`: whether the status of the task is one
of the given ones. -/
def statusMatch (t : Task) : List String → Bool
  | [] => false
  | s :: rest => if t.Status = s then true else statusMatch t rest

/-- The function `tasksToItems` of `update.go`. -/
def tasksToItems (tasks : List Task) (statuses : List String) : List Item :=
  match tasks with
  | [] => []
  | t :: rest =>
    if statusMatch t statuses then
      { title := taskTitle t, desc := t.Description } :: tasksToItems rest statuses
    else tasksToItems rest statuses

/-- The tail of `Update` (lines 156-163): both lists receive the message, and
the collected commands are batched. -/
def updateLists (W : Widgets) (m : MainModel) (msg : Msg) (cmds : List (Option Cmd)) :
    MainModel × List Cmd :=
  let p := W.listUpdate m.pendingList msg
  let a := W.listUpdate m.activeList msg
  ({ m with pendingList := p.1, activeList := a.1 }, Batch (cmds ++ [p.2, a.2]))

/-- The block shared by the keys `s`, `c`, `x` and `d`: if the list has
items and a selected item whose title scans to an id greater than 0, the event
`label` followed by the id and "..." is prepended and the command for that id
is collected. -/
def dispatchSelected (m : MainModel) (l : ListModel) (label : String) (mk : Int → Cmd) :
    MainModel × List (Option Cmd) :=
  if 0 < l.Items.length then
    match l.SelectedItem with
    | some selectedItem =>
      let id := sscanfID selectedItem.title
      if 0 < id then
        ({ m with events := (label ++ fmtD id ++ "...") :: m.events }, [some (mk id)])
      else (m, [])
    | none => (m, [])
  else (m, [])

/-- The keys of normal mode (the `else` branch at line 55 of `update.go`). -/
def updateNormalKey (W : Widgets) (m : MainModel) (k : KeyMsg) : MainModel × List Cmd :=
  let s := k.String
  if s = "ctrl+c" then ({ m with Quitting := true }, [Cmd.Quit])
  else if s = "a" then ({ m with InputMode := true, Input := m.Input.Focus }, [Cmd.Blink])
  else if s = "s" then
    if m.Tab = 0 then
      let r := dispatchSelected m m.pendingList "Starting task #" Cmd.StartTaskCmd
      updateLists W r.1 (.key k) r.2
    else updateLists W m (.key k) []
  else if s = "c" then
    if m.Tab = 1 then
      let r := dispatchSelected m m.activeList "Completing task #" Cmd.CompleteTaskCmd
      updateLists W r.1 (.key k) r.2
    else updateLists W m (.key k) []
  else if s = "e" then
    updateLists W { m with events := "[Edit] Not implemented yet." :: m.events } (.key k) []
  else if s = "r" then
    updateLists W { m with events := "Scanning tasks..." :: m.events } (.key k)
      [some Cmd.FetchTasksCmd]
  else if s = "x" then
    if m.Tab = 1 then
      let r := dispatchSelected m m.activeList "Stopping task #" Cmd.StopTaskCmd
      updateLists W r.1 (.key k) r.2
    else updateLists W m (.key k) []
  else if s = "d" ∨ s = "backspace" then
    if m.Tab = 0 then
      let r := dispatchSelected m m.pendingList "Removing task #" Cmd.RemoveTaskCmd
      updateLists W r.1 (.key k) r.2
    else if m.Tab = 1 then
      let r := dispatchSelected m m.activeList "Removing task #" Cmd.RemoveTaskCmd
      updateLists W r.1 (.key k) r.2
    else updateLists W m (.key k) []
  else if s = "l" then (m, [Cmd.LogsTuiCmd])
  else if s = "tab" then
    updateLists W { m with Tab := Int.tmod (wrapInt (m.Tab + 1)) 3 } (.key k) []
  else updateLists W m (.key k) []

/-- The end of the Enter branch (lines 46-49): the buffer is cleared, input
mode is left and the collected commands are batched. -/
def leaveInput (m : MainModel) (cmds : List (Option Cmd)) : MainModel × List Cmd :=
  ({ m with Input := (m.Input.SetValue "").Blur, InputMode := false }, Batch cmds)

/-- The keys of input mode (the branch at line 38 of `update.go`). -/
def updateInputKey (W : Widgets) (m : MainModel) (k : KeyMsg) : MainModel × List Cmd :=
  if k.Type_ = .KeyEnter then
    if m.Input.Value ≠ "" then
      leaveInput { m with events := ("Adding task: " ++ m.Input.Value ++ "...") :: m.events }
        [some (Cmd.AddTaskCmd m.Input.Value)]
    else leaveInput m []
  else
    let r := W.inputUpdate m.Input (.key k)
    ({ m with Input := r.1 }, Batch [r.2])

/-- The method `MainModel.Update` of `update.go`: the new model and the
commands of the returned batch. -/
def Update (W : Widgets) (m : MainModel) (msg : Msg) : MainModel × List Cmd :=
  match msg with
  | .key k =>
    if k.Type_ = .KeyEsc then
      if m.InputMode then ({ m with InputMode := false, Input := m.Input.Blur }, [])
      else if m.pendingList.FilterState = .Filtering ∨ m.activeList.FilterState = .Filtering then
        updateLists W m msg []
      else (m, [])
    else if k.String = "q" ∧ m.InputMode = false then
      ({ m with Quitting := true }, [Cmd.Quit])
    else if m.InputMode then updateInputKey W m k
    else updateNormalKey W m k
  | .windowSize w h => updateLists W { m with Width := w, Height := h } msg []
  | .tick t =>
    let r := W.spinnerUpdate m.Spinner t
    updateLists W { m with Spinner := r.1 } msg [r.2]
  | .taskLoad tasks =>
    let m1 := { m with pendingList := m.pendingList.SetItems (tasksToItems tasks ["pending"]) }
    let m2 := { m1 with
      activeList := m1.activeList.SetItems (tasksToItems tasks ["in_progress", "failed"]) }
    let m3 := { m2 with
      Loaded := true
      events := "Tasks refreshed." :: m2.events
      Spinner := (W.spinnerUpdate m2.Spinner {}).1 }
    updateLists W m3 msg []
  | .error e =>
    updateLists W { m with Err := some e, events := ("Error: " ++ e) :: m.events } msg []
  | .other _ => updateLists W m msg []

/-- A small reference implementation of the widgets: the list moves its
cursor on the arrow keys, the text field appends typed runes and deletes on
backspace, the spinner advances a frame on a tick it accepts. -/
def refWidgets : Widgets where
  listUpdate := fun l msg =>
    match msg with
    | .key k =>
      if k.String = "down" then
        ({ l with index := if l.index + 1 < l.VisibleItems.length then l.index + 1 else l.index },
          none)
      else if k.String = "up" then ({ l with index := l.index - 1 }, none)
      else (l, none)
    | _ => (l, none)
  inputUpdate := fun t msg =>
    match msg with
    | .key k =>
      if t.focus = false then (t, none)
      else if k.Type_ = .KeyRunes then
        let v := String.mk (t.value.data ++ k.Runes)
        ({ t with value := v, pos := v.length }, none)
      else if k.Type_ = .KeyBackspace then
        let v := String.mk t.value.data.dropLast
        ({ t with value := v, pos := v.length }, none)
      else (t, none)
    | _ => (t, none)
  spinnerUpdate := fun s t =>
    if 0 < t.tag ∧ t.tag ≠ Int.ofNat s.tag then (s, none)
    else ({ frame := (s.frame + 1) % 10, tag := s.tag + 1 }, some (Cmd.component 0))

/-- The key message of the Esc key. -/
def keyEsc : Msg := .key { Type_ := .KeyEsc }

/-- The key message of the Enter key. -/
def keyEnter : Msg := .key { Type_ := .KeyEnter }

/-- The key message of the Tab key. -/
def keyTab : Msg := .key { Type_ := .KeyTab }

/-- The key message of a typed character. -/
def keyRune (c : Char) : Msg := .key { Type_ := .KeyRunes, Runes := [c] }

/-- The states the program can be in: `InitialModel`, and every state
`Update` produces from a reachable state on any message. -/
inductive Reachable (W : Widgets) : MainModel → Prop where
  | init : Reachable W InitialModel
  | step (m : MainModel) (msg : Msg) : Reachable W m → Reachable W (Update W m msg).1

/-- A state in input mode whose buffer holds the text "abc". -/
def typingAbc : MainModel :=
  { InitialModel with
    InputMode := true
    Input := { InitialModel.Input with value := "abc", pos := 3, focus := true } }

/-- A state in input mode whose buffer holds the text "Integration Test Task". -/
def typingTask : MainModel :=
  { InitialModel with
    InputMode := true
    Input := { InitialModel.Input with value := "Integration Test Task", pos := 21, focus := true } }

/-- A state in input mode whose buffer is empty. -/
def typingEmpty : MainModel :=
  { InitialModel with
    InputMode := true
    Input := { InitialModel.Input with focus := true } }

/-- A snapshot with one task of each status. -/
def sampleTasks : List Task := [
  { ID := 1, Description := "Write docs", Status := "pending", Agent := "", Priority := "high" },
  { ID := 2, Description := "Build API", Status := "in_progress", Agent := "builder",
    Priority := "medium" },
  { ID := 3, Description := "Deploy", Status := "failed", Agent := "ops", Priority := "high" },
  { ID := 4, Description := "Plan", Status := "completed", Agent := "lead", Priority := "low" }]

/-- The pending task of `sampleTasks`. -/
def pendingSample : Task :=
  { ID := 1, Description := "Write docs", Status := "pending", Agent := "", Priority := "high" }

/-- The state after the initial state has folded the snapshot `sampleTasks`. -/
def loadedModel : MainModel := (Update refWidgets InitialModel (.taskLoad sampleTasks)).1

/-- A state whose last error is set. -/
def erroredModel : MainModel :=
  { InitialModel with Err := some "start task failed: exit status 1" }

/-- The state `loadedModel` on the Active tab with the cursor on the failed
task of `sampleTasks`. -/
def failedSelected : MainModel :=
  { loadedModel with Tab := 1, activeList := { loadedModel.activeList with index := 1 } }

/-- Whether a command is one the program issues itself (a task command, the
fetch, the log viewer or quit) rather than one a widget returns. -/
def Cmd.isProgramCmd : Cmd → Bool
  | .Blink => false
  | .component _ => false
  | _ => true

/-- The key message of the Backspace key. -/
def keyBackspace : Msg := .key { Type_ := .KeyBackspace }

/-- A list offers no task to act on: it has no items, or it has no selected
item, or the title of the selected item does not scan to an id greater
than 0. -/
def ListModel.Unresolved (l : ListModel) : Prop :=
  l.Items = [] ∨ ∀ it : Item, l.SelectedItem = some it → sscanfID it.title ≤ 0

/-- A message is handled silently: the event log and `Err` are as before, and
the returned batch holds only what the two list widgets return themselves. -/
def Silent (W : Widgets) (m : MainModel) (msg : Msg) : Prop :=
  (Update W m msg).1.events = m.events ∧
  (Update W m msg).1.Err = m.Err ∧
  (Update W m msg).2 =
    Batch [(W.listUpdate m.pendingList msg).2, (W.listUpdate m.activeList msg).2]

/-! ## `internal/orchestrator`: running the commands -/

/-- The outcome of `os.Stat` as the gateway inspects it: no error, an error
for which `os.IsNotExist` holds, or another error. -/
inductive StatResult where
  | ok | notExist | otherError
  deriving DecidableEq, Repr

/-- A system call the gateway performs. -/
inductive SysCall where
  | stat (path : String)
  | readFile (path : String)
  | exec (argv : List String) (env : List String)
  deriving DecidableEq, Repr

/-- The operating system and `encoding/json` as the gateway uses them, over a
type `σ` of system states: `os.Stat`, `os.ReadFile` (data or error text),
`json.Unmarshal` into the task list (tasks or error text), and
`exec.Cmd.CombinedOutput` for an argument vector and the entries appended to
the environment (the state afterwards, the combined output and the error text
if the invocation failed). -/
structure System (σ : Type) where
  stat : σ → String → StatResult
  readFile : σ → String → Except String String
  unmarshal : String → Except String (List Task)
  combinedOutput : σ → List String → List String → σ × String × Option String

/-- The function returned by `FetchTasksCmd` of `client.go`, run on a system
state: the message it returns and the system calls it makes. -/
def runFetchTasksCmd {σ : Type} (S : System σ) (w : σ) : Msg × List SysCall :=
  let path :=
    if S.stat w ".claude/tasks.json" = .notExist then "../../.claude/tasks.json"
    else ".claude/tasks.json"
  let calls := [SysCall.stat ".claude/tasks.json", SysCall.readFile path]
  match S.readFile w path with
  | .error err => (Msg.error ("failed to read tasks.json: " ++ err), calls)
  | .ok data =>
    match S.unmarshal data with
    | .error err => (Msg.error ("failed to list tasks: " ++ err), calls)
    | .ok tasks => (Msg.taskLoad tasks, calls)

/-- The function `findScriptPath` of `client.go`, with the system calls it
makes. -/
def findScriptPath {σ : Type} (S : System σ) (w : σ) : String × List SysCall :=
  if S.stat w ".claude/scripts/orchestrator.sh" = .ok then
    (".claude/scripts/orchestrator.sh", [SysCall.stat ".claude/scripts/orchestrator.sh"])
  else if S.stat w "../scripts/orchestrator.sh" = .ok then
    ("../scripts/orchestrator.sh",
      [SysCall.stat ".claude/scripts/orchestrator.sh", SysCall.stat "../scripts/orchestrator.sh"])
  else
    ("../scripts/orchestrator.sh",
      [SysCall.stat ".claude/scripts/orchestrator.sh", SysCall.stat "../scripts/orchestrator.sh"])

/-- Whether a command is one of the five that mutate task state. -/
def Cmd.isMutating : Cmd → Bool
  | .AddTaskCmd _ => true
  | .StartTaskCmd _ => true
  | .CompleteTaskCmd _ => true
  | .StopTaskCmd _ => true
  | .RemoveTaskCmd _ => true
  | _ => false

/-- The text in front of the error in the `fmt.Errorf` of a mutating command. -/
def Cmd.failure : Cmd → String
  | .AddTaskCmd _ => "add task failed"
  | .StartTaskCmd _ => "start task failed"
  | .CompleteTaskCmd _ => "complete task failed"
  | .StopTaskCmd _ => "stop task failed"
  | .RemoveTaskCmd _ => "remove task failed"
  | _ => ""

/-- The entries a command appends to `os.Environ()` for its invocation: only
`AddTaskCmd` sets `cmd.Env`. -/
def Cmd.extraEnv : Cmd → List String
  | .AddTaskCmd _ => ["ORCH_AUTO_CONFIRM=yes", "USE_AI=false", "ORCH_NO_AUTO_LAUNCH=yes"]
  | _ => []

/-- Running the function a gateway command of `client.go` returns, on a
system state: the state afterwards, the one message returned and the system
calls made.  A mutating command finds the script, invokes it, and on an error
returns `ErrorMsg(fmt.Errorf("<verb> task failed: %v\nOutput: %s", err,
output))`, otherwise the result of `FetchTasksCmd()()`.  Commands of the
runtime and the widgets are not gateway commands (`none`). -/
def Cmd.run {σ : Type} (S : System σ) (w : σ) (c : Cmd) :
    Option (σ × Msg × List SysCall) :=
  match c with
  | .FetchTasksCmd => some (w, runFetchTasksCmd S w)
  | _ =>
    let sp := findScriptPath S w
    match c.argv sp.1 with
    | none => none
    | some argv =>
      let r := S.combinedOutput w argv c.extraEnv
      match r.2.2 with
      | some err =>
        some (r.1, Msg.error (c.failure ++ ": " ++ err ++ "\nOutput: " ++ r.2.1),
          sp.2 ++ [SysCall.exec argv c.extraEnv])
      | none =>
        let f := runFetchTasksCmd S r.1
        some (r.1, f.1, sp.2 ++ [SysCall.exec argv c.extraEnv] ++ f.2)

/-- A small system for examples: the state says whether task 1 has been
started; the script is installed under `.claude/scripts`; `start 1` succeeds
and every other invocation fails with exit status 1; the task document holds
the one task. -/
def demoSystem : System Bool where
  stat := fun _ path =>
    if path = ".claude/scripts/orchestrator.sh" ∨ path = ".claude/tasks.json" then .ok
    else .notExist
  readFile := fun w path =>
    if path = ".claude/tasks.json" then .ok (if w then "in_progress" else "pending")
    else .error "open: no such file or directory"
  unmarshal := fun data =>
    if data = "in_progress" ∨ data = "pending" then
      .ok [{ ID := 1, Description := "Write docs", Status := data, Agent := "writer",
             Priority := "high" }]
    else .error "invalid character"
  combinedOutput := fun w argv _ =>
    if argv = ["bash", ".claude/scripts/orchestrator.sh", "start", "1"] then
      (true, "Started task 1", none)
    else (w, "Task not found", some "exit status 1")

/-- The key message of the Down arrow key. -/
def keyDown : Msg := .key { Type_ := .KeyDown }

/-- The state after the cursor of the initial pending list has moved down to
its second item and a snapshot with the single task `pendingSample` has been
folded. -/
def reloadedAfterDown : MainModel :=
  (Update refWidgets (Update refWidgets InitialModel keyDown).1 (.taskLoad [pendingSample])).1

/-! ## Decimal formatting and scanning -/

theorem digitChar_isDigit (k : Nat) (hk : k < 10) :
    (Nat.digitChar k).isDigit = true ∧ digitVal (Nat.digitChar k) = k := by
  interval_cases k <;> decide

theorem digitsValue_append_singleton (s : List Char) (c : Char) :
    digitsValue (s ++ [c]) = digitsValue s * 10 + digitVal c := by
  simp [digitsValue, List.foldl_append]

theorem toDigitsCore_spec (fuel : Nat) : ∀ (n : Nat) (ds : List Char), n < fuel →
    ∃ pre : List Char, Nat.toDigitsCore 10 fuel n ds = pre ++ ds ∧ pre ≠ [] ∧
      (∀ c ∈ pre, c.isDigit = true) ∧ digitsValue pre = n := by
  induction fuel with
  | zero => intro n ds h; omega
  | succ fuel ih =>
    intro n ds h
    have hd := digitChar_isDigit (n % 10) (Nat.mod_lt n (by decide))
    unfold Nat.toDigitsCore
    dsimp only
    by_cases h0 : n / 10 = 0
    · rw [if_pos h0]
      refine ⟨[Nat.digitChar (n % 10)], rfl, by simp, ?_, ?_⟩
      · intro c hc
        simp only [List.mem_singleton] at hc
        rw [hc]; exact hd.1
      · have : digitsValue [Nat.digitChar (n % 10)] = digitVal (Nat.digitChar (n % 10)) := by
          simp [digitsValue]
        rw [this, hd.2]
        omega
    · rw [if_neg h0]
      obtain ⟨pre, hpre, _, hdig, hval⟩ := ih (n / 10) (Nat.digitChar (n % 10) :: ds) (by omega)
      refine ⟨pre ++ [Nat.digitChar (n % 10)], ?_, by simp, ?_, ?_⟩
      · rw [hpre]; simp
      · intro c hc
        rcases List.mem_append.mp hc with hc | hc
        · exact hdig c hc
        · simp only [List.mem_singleton] at hc
          rw [hc]; exact hd.1
      · rw [digitsValue_append_singleton, hval, hd.2]
        omega

/-- The decimal digits `%d` prints for a natural number: a non-empty string
of digit characters whose value is the number. -/
theorem toDigits_spec (n : Nat) :
    Nat.toDigits 10 n ≠ [] ∧ (∀ c ∈ Nat.toDigits 10 n, c.isDigit = true) ∧
      digitsValue (Nat.toDigits 10 n) = n := by
  obtain ⟨pre, hpre, hne, hdig, hval⟩ := toDigitsCore_spec (n + 1) n [] (Nat.lt_succ_self n)
  have : Nat.toDigits 10 n = pre := by
    unfold Nat.toDigits
    rw [hpre]; simp
  rw [this]
  exact ⟨hne, hdig, hval⟩

theorem isDigit_bounds (c : Char) (h : c.isDigit = true) : 48 ≤ c.toNat ∧ c.toNat ≤ 57 := by
  simp only [Char.isDigit, Bool.and_eq_true, decide_eq_true_eq] at h
  have h1 : (48 : UInt32).toNat ≤ c.val.toNat := h.1
  have h2 : c.val.toNat ≤ (57 : UInt32).toNat := h.2
  exact ⟨h1, h2⟩

theorem isDigit_facts (c : Char) (h : c.isDigit = true) :
    c ≠ '\r' ∧ c ≠ '\n' ∧ c ≠ '+' ∧ c ≠ '-' ∧ c ≠ '#' ∧ isSpace c = false ∧
      isScanDigit c = true := by
  have hb := isDigit_bounds c h
  refine ⟨?_, ?_, ?_, ?_, ?_, ?_, ?_⟩
  · rintro rfl; revert h; decide
  · rintro rfl; revert h; decide
  · rintro rfl; revert h; decide
  · rintro rfl; revert h; decide
  · rintro rfl; revert h; decide
  · simp only [isSpace, decide_eq_false_iff_not]
    omega
  · simp [isScanDigit, h]

theorem takeWhile_digits (ds rest : List Char) (c : Char) (hds : ∀ d ∈ ds, d.isDigit = true)
    (hc : isScanDigit c = false) : (ds ++ c :: rest).takeWhile isScanDigit = ds := by
  induction ds with
  | nil => simp [List.takeWhile, hc]
  | cons d ds ih =>
    have hd := (isDigit_facts d (hds d (List.mem_cons_self d ds))).2.2.2.2.2.2
    rw [List.cons_append, List.takeWhile_cons, hd, if_pos rfl,
      ih (fun x hx => hds x (List.mem_cons_of_mem d hx))]

theorem SkipSpace_digit (d : Char) (rest : List Char) (h : d.isDigit = true) :
    SkipSpace (d :: rest) = some (d :: rest) := by
  obtain ⟨h1, h2, -, -, -, h3, -⟩ := isDigit_facts d h
  simp [SkipSpace, h1, h2, h3]

theorem ParseInt_digits (ds : List Char) (hne : ds ≠ []) (hds : ∀ d ∈ ds, d.isDigit = true)
    (hv : digitsValue ds < 2 ^ 63) : ParseInt ds = some (Int.ofNat (digitsValue ds)) := by
  have hU : ParseUint ds = some (digitsValue ds) := by
    have hall : ds.all Char.isDigit = true := by
      simpa [List.all_eq_true] using hds
    have hlt : digitsValue ds < 2 ^ 64 := by omega
    unfold ParseUint
    rw [if_neg hne, if_pos hall]
    simp only [hlt, if_true]
  cases ds with
  | nil => exact absurd rfl hne
  | cons d ds' =>
    obtain ⟨-, -, hp, hm, -, -, -⟩ := isDigit_facts d (hds d (List.mem_cons_self d ds'))
    unfold ParseInt
    split
    · rename_i heq; cases heq
    · rename_i heq; injection heq with h1 h2; exact absurd h1 hp
    · rename_i heq; injection heq with h1 h2; exact absurd h1 hm
    · rw [hU]
      have : ¬ (digitsValue (d :: ds') ≥ 2 ^ 63) := by omega
      simp only [this, if_false]

theorem scanInt_digits (ds rest : List Char) (hne : ds ≠ []) (hds : ∀ d ∈ ds, d.isDigit = true)
    (hv : digitsValue ds < 2 ^ 63) :
    scanInt (ds ++ ' ' :: rest) = some (Int.ofNat (digitsValue ds)) := by
  cases hds' : ds with
  | nil => exact absurd hds' hne
  | cons d ds' =>
    subst hds'
    have hd := hds d (List.mem_cons_self d ds')
    obtain ⟨-, -, hp, hm, -, -, -⟩ := isDigit_facts d hd
    have htw := takeWhile_digits (d :: ds') rest ' ' hds (by decide)
    unfold scanInt
    rw [List.cons_append, SkipSpace_digit d _ hd]
    simp only [hp, hm, or_self, if_false]
    rw [← List.cons_append, htw]
    simp only [List.nil_append, reduceCtorEq, if_false]
    exact ParseInt_digits (d :: ds') hne hds hv

/-- Scanning undoes the title format: for an id in `(0, 2^63)` and any agent
text, `Sscanf` with `#%d` reads the id back from `#<id> <agent>`. -/
theorem sscanfID_format (id : Int) (agent : String) (h0 : 0 < id) (h1 : id < 2 ^ 63) :
    sscanfID ("#" ++ fmtD id ++ " " ++ agent) = id := by
  obtain ⟨n, rfl⟩ := Int.eq_ofNat_of_zero_le (le_of_lt h0)
  obtain ⟨hne, hdig, hval⟩ := toDigits_spec n
  have hdata : ("#" ++ fmtD (n : Int) ++ " " ++ agent).data =
      '#' :: (Nat.toDigits 10 n ++ ' ' :: agent.data) := by
    simp [fmtD, String.data_append]
  have hn : n < 2 ^ 63 := by exact_mod_cast h1
  unfold sscanfID
  rw [hdata]
  cases hds : Nat.toDigits 10 n with
  | nil => exact absurd hds hne
  | cons d ds' =>
    rw [hds] at hdig hval hne
    have hd := hdig d (List.mem_cons_self d ds')
    simp only [List.cons_append]
    rw [SkipSpace_digit d _ hd]
    simp only []
    rw [← List.cons_append, scanInt_digits (d :: ds') agent.data hne hdig (by omega), hval]
    rfl

/-- A title that starts with the tag of a failed task does not match the
format `#%d`: the scanned id stays 0. -/
theorem sscanfID_failed_tag (rest : String) : sscanfID ("[FAILED] " ++ rest) = 0 := by
  have hdata : ("[FAILED] " ++ rest).data = '[' :: ("FAILED] ".data ++ rest.data) := by
    rw [String.data_append]; rfl
  unfold sscanfID
  rw [hdata]
  split
  · rename_i heq; injection heq with h1 h2; exact absurd h1 (by decide)
  · rfl

/-! ## Frame lemmas for the pieces of `Update` -/

@[simp]
theorem updateLists_Tab (W : Widgets) (m : MainModel) (msg : Msg)
    (c : List (Option Cmd)) : (updateLists W m msg c).1.Tab = m.Tab := rfl

@[simp]
theorem updateLists_InputMode (W : Widgets) (m : MainModel) (msg : Msg)
    (c : List (Option Cmd)) : (updateLists W m msg c).1.InputMode = m.InputMode := rfl

@[simp]
theorem updateLists_events (W : Widgets) (m : MainModel) (msg : Msg)
    (c : List (Option Cmd)) : (updateLists W m msg c).1.events = m.events := rfl

@[simp]
theorem updateLists_Err (W : Widgets) (m : MainModel) (msg : Msg)
    (c : List (Option Cmd)) : (updateLists W m msg c).1.Err = m.Err := rfl

theorem dispatchSelected_frame (m : MainModel) (l : ListModel) (verb : String)
    (mk : Int → Cmd) :
    (dispatchSelected m l verb mk).1 =
      { m with events := (dispatchSelected m l verb mk).1.events } := by
  unfold dispatchSelected
  split_ifs
  · split
    · dsimp only
      split_ifs <;> rfl
    · rfl
  · rfl

@[simp]
theorem dispatchSelected_Tab (m : MainModel) (l : ListModel) (verb : String)
    (mk : Int → Cmd) : (dispatchSelected m l verb mk).1.Tab = m.Tab := by
  rw [dispatchSelected_frame]

/-- In normal mode a key other than Esc and `q` is handled by the normal-mode
key table. -/
theorem update_normal_key (W : Widgets) (m : MainModel) (k : KeyMsg) (hN : m.InputMode = false)
    (hE : k.Type_ ≠ .KeyEsc) (hq : k.String ≠ "q") :
    Update W m (.key k) = updateNormalKey W m k := by
  simp [Update, hN, hE, hq]

/-- In input mode a key other than Esc is handled by the input-mode branch. -/
theorem update_input_key (W : Widgets) (m : MainModel) (k : KeyMsg) (hI : m.InputMode = true)
    (hE : k.Type_ ≠ .KeyEsc) : Update W m (.key k) = updateInputKey W m k := by
  simp [Update, hI, hE]

theorem keyTab_step (W : Widgets) (m : MainModel) (hN : m.InputMode = false) :
    Update W m keyTab =
      updateLists W { m with Tab := Int.tmod (wrapInt (m.Tab + 1)) 3 } keyTab [] := by
  unfold keyTab
  rw [update_normal_key W m _ hN (by decide) (by decide)]
  unfold updateNormalKey
  rw [show KeyMsg.String { Type_ := .KeyTab } = "tab" from rfl]
  simp

/-- Case analysis on a conditional under a predicate. -/
theorem ite_ind {α : Type} (P : α → Prop) (c : Prop) [Decidable c] (a b : α)
    (ha : c → P a) (hb : ¬ c → P b) : P (if c then a else b) := by
  by_cases h : c
  · rw [if_pos h]; exact ha h
  · rw [if_neg h]; exact hb h

theorem updateNormalKey_Tab (W : Widgets) (m : MainModel) (k : KeyMsg) :
    (updateNormalKey W m k).1.Tab = m.Tab ∨
      (updateNormalKey W m k).1.Tab = Int.tmod (wrapInt (m.Tab + 1)) 3 := by
  unfold updateNormalKey
  dsimp only
  generalize k.String = s
  repeat' refine ite_ind (fun r : MainModel × List Cmd => r.1.Tab = m.Tab ∨
      r.1.Tab = Int.tmod (wrapInt (m.Tab + 1)) 3) _ _ _ (fun _ => ?_) (fun _ => ?_)
  all_goals first | (left; rfl) | (right; rfl) | (left; exact dispatchSelected_Tab _ _ _ _)

theorem updateInputKey_Tab (W : Widgets) (m : MainModel) (k : KeyMsg) :
    (updateInputKey W m k).1.Tab = m.Tab := by
  unfold updateInputKey leaveInput
  dsimp only
  split_ifs <;> rfl

/-- Every message leaves `Tab` alone or advances it by one step of the cycle. -/
theorem update_Tab_cases (W : Widgets) (m : MainModel) (msg : Msg) :
    (Update W m msg).1.Tab = m.Tab ∨
      (Update W m msg).1.Tab = Int.tmod (wrapInt (m.Tab + 1)) 3 := by
  cases msg with
  | key k =>
    unfold Update
    dsimp only
    split_ifs
    · left; rfl
    · left; rfl
    · left; rfl
    · left; rfl
    · left; exact updateInputKey_Tab W m k
    · exact updateNormalKey_Tab W m k
  | _ => left; rfl

theorem tab_next_cases (t : Int) (h : t = 0 ∨ t = 1 ∨ t = 2) :
    Int.tmod (wrapInt (t + 1)) 3 = (t + 1) % 3 ∧
      (Int.tmod (wrapInt (t + 1)) 3 = 0 ∨ Int.tmod (wrapInt (t + 1)) 3 = 1 ∨
        Int.tmod (wrapInt (t + 1)) 3 = 2) := by
  rcases h with h | h | h <;> subst h <;> decide

/-- In every reachable state `Tab` is 0, 1 or 2. -/
theorem reachable_Tab (W : Widgets) (s : MainModel) (h : Reachable W s) :
    s.Tab = 0 ∨ s.Tab = 1 ∨ s.Tab = 2 := by
  induction h with
  | init => left; rfl
  | step m msg _ ih =>
    rcases update_Tab_cases W m msg with h | h
    · rw [h]; exact ih
    · rw [h]; exact (tab_next_cases m.Tab ih).2

/-! ## Cancelling input mode -/

/-- C1: handling Esc in input mode returns to normal mode and dispatches
nothing, but the text of the input buffer is kept as it is: the buffer is not
cleared.  On the state `typingAbc` the buffer after Esc is still "abc". -/
theorem update_esc_keeps_buffer (W : Widgets) (m : MainModel) :
    (Update W { m with InputMode := true } keyEsc).1.InputMode = false ∧
    (Update W { m with InputMode := true } keyEsc).1.Input.Value = m.Input.Value ∧
    (Update W { m with InputMode := true } keyEsc).2 = [] ∧
    (Update W typingAbc keyEsc).1.Input.Value = "abc" ∧
    (Update W typingAbc keyEsc).1.Input.Value ≠ "" := by
  refine ⟨?_, ?_, ?_, ?_, ?_⟩
  · simp [Update, keyEsc]
  · simp [Update, keyEsc, TextInput.Blur, TextInput.Value]
  · simp [Update, keyEsc]
  · rfl
  · have h : (Update W typingAbc keyEsc).1.Input.Value = "abc" := rfl
    rw [h]; decide

/-! ## Cycling the tabs -/

/-- C2: in normal mode with `Tab` in 0..2, one press of the tab key sets `Tab`
to `(Tab + 1) mod 3` and leaves `InputMode` and the event log unchanged; three
presses in a row restore `Tab`; and in every state reachable from
`InitialModel`, `Tab` is 0, 1 or 2. -/
theorem update_tab_cycle (W : Widgets) (m : MainModel) (hN : m.InputMode = false)
    (hT : m.Tab = 0 ∨ m.Tab = 1 ∨ m.Tab = 2) :
    (Update W m keyTab).1.Tab = (m.Tab + 1) % 3 ∧
    (Update W m keyTab).1.InputMode = m.InputMode ∧
    (Update W m keyTab).1.events = m.events ∧
    (Update W (Update W (Update W m keyTab).1 keyTab).1 keyTab).1.Tab = m.Tab ∧
    (∀ s : MainModel, Reachable W s → s.Tab = 0 ∨ s.Tab = 1 ∨ s.Tab = 2) := by
  have h1 := keyTab_step W m hN
  have hN1 : (Update W m keyTab).1.InputMode = false := by rw [h1]; exact hN
  have h2 := keyTab_step W (Update W m keyTab).1 hN1
  have hN2 : (Update W (Update W m keyTab).1 keyTab).1.InputMode = false := by
    rw [h2]; exact hN1
  have h3 := keyTab_step W (Update W (Update W m keyTab).1 keyTab).1 hN2
  have e1 : (Update W m keyTab).1.Tab = Int.tmod (wrapInt (m.Tab + 1)) 3 := by rw [h1]; rfl
  have e2 : (Update W (Update W m keyTab).1 keyTab).1.Tab =
      Int.tmod (wrapInt ((Update W m keyTab).1.Tab + 1)) 3 := by rw [h2]; rfl
  have e3 : (Update W (Update W (Update W m keyTab).1 keyTab).1 keyTab).1.Tab =
      Int.tmod (wrapInt ((Update W (Update W m keyTab).1 keyTab).1.Tab + 1)) 3 := by
    rw [h3]; rfl
  refine ⟨?_, ?_, ?_, ?_, reachable_Tab W⟩
  · rw [e1]; exact (tab_next_cases m.Tab hT).1
  · rw [h1]; rfl
  · rw [h1]; rfl
  · rw [e3, e2, e1]
    rcases hT with h | h | h <;> rw [h] <;> decide

/-- Witness for `update_tab_cycle`: the initial state. -/
theorem update_tab_cycle_witness :
    InitialModel.InputMode = false ∧ (InitialModel.Tab = 0 ∨ InitialModel.Tab = 1 ∨
      InitialModel.Tab = 2) ∧
    (Update refWidgets InitialModel keyTab).1.Tab = (InitialModel.Tab + 1) % 3 ∧
    (Update refWidgets InitialModel keyTab).1.InputMode = InitialModel.InputMode ∧
    (Update refWidgets InitialModel keyTab).1.events = InitialModel.events ∧
    (Update refWidgets (Update refWidgets (Update refWidgets InitialModel keyTab).1 keyTab).1
      keyTab).1.Tab = InitialModel.Tab ∧
    (∀ s : MainModel, Reachable refWidgets s → s.Tab = 0 ∨ s.Tab = 1 ∨ s.Tab = 2) :=
  ⟨rfl, Or.inl rfl, update_tab_cycle refWidgets InitialModel rfl (Or.inl rfl)⟩

/-! ## Projections of a snapshot -/

theorem statusMatch_pending (t : Task) :
    statusMatch t ["pending"] = decide (t.Status = "pending") := by
  simp [statusMatch]

theorem statusMatch_active (t : Task) :
    statusMatch t ["in_progress", "failed"] =
      decide (t.Status = "in_progress" ∨ t.Status = "failed") := by
  by_cases h1 : t.Status = "in_progress" <;> by_cases h2 : t.Status = "failed" <;>
    simp [statusMatch, h1, h2]

/-- The function `tasksToItems` is a filter on the status followed by a map. -/
theorem tasksToItems_eq (ts : List Task) (statuses : List String) :
    tasksToItems ts statuses =
      (ts.filter (fun t => statusMatch t statuses)).map
        (fun t => { title := taskTitle t, desc := t.Description }) := by
  induction ts with
  | nil => rfl
  | cons t rest ih =>
    unfold tasksToItems
    by_cases h : statusMatch t statuses = true
    · rw [if_pos h, ih]; simp [List.filter_cons, h]
    · rw [if_neg h, ih]; simp [List.filter_cons, h]

theorem taskTitle_not_failed (t : Task) (h : t.Status ≠ "failed") :
    taskTitle t = "#" ++ fmtD t.ID ++ " " ++ t.Agent := by
  unfold taskTitle
  rw [if_neg h, String.empty_append]

theorem taskTitle_failed (t : Task) (h : t.Status = "failed") :
    taskTitle t = "[FAILED] " ++ ("#" ++ fmtD t.ID ++ " " ++ t.Agent) := by
  unfold taskTitle
  rw [if_pos h]
  simp only [String.append_assoc]

/-! ## Folding results -/

/-- C3: folding a command failure `ErrorMsg e` leaves `Tab`, `InputMode`,
`Quitting`, the input buffer, and every other field outside the two lists as
they are; it sets `Err` to the received error and prepends exactly one entry,
"Error: e", to the event log.  The two lists only receive the message through
the list widget's own `Update`, so their items, cursor index and selected item
are unchanged provided that widget ignores a message that is not its own. -/
theorem update_error_frame (W : Widgets) (m : MainModel) (e : String)
    (hL : ∀ l : ListModel, (W.listUpdate l (.error e)).1.Items = l.Items ∧
      (W.listUpdate l (.error e)).1.index = l.index ∧
      (W.listUpdate l (.error e)).1.SelectedItem = l.SelectedItem) :
    (Update W m (.error e)).1.Tab = m.Tab ∧
    (Update W m (.error e)).1.InputMode = m.InputMode ∧
    (Update W m (.error e)).1.Quitting = m.Quitting ∧
    (Update W m (.error e)).1.Input = m.Input ∧
    (Update W m (.error e)).1.pendingList.Items = m.pendingList.Items ∧
    (Update W m (.error e)).1.pendingList.index = m.pendingList.index ∧
    (Update W m (.error e)).1.pendingList.SelectedItem = m.pendingList.SelectedItem ∧
    (Update W m (.error e)).1.activeList.Items = m.activeList.Items ∧
    (Update W m (.error e)).1.activeList.index = m.activeList.index ∧
    (Update W m (.error e)).1.activeList.SelectedItem = m.activeList.SelectedItem ∧
    (Update W m (.error e)).1.Loaded = m.Loaded ∧
    (Update W m (.error e)).1.Width = m.Width ∧
    (Update W m (.error e)).1.Height = m.Height ∧
    (Update W m (.error e)).1.Tasks = m.Tasks ∧
    (Update W m (.error e)).1.Spinner = m.Spinner ∧
    (Update W m (.error e)).1.Err = some e ∧
    (Update W m (.error e)).1.events = ("Error: " ++ e) :: m.events :=
  ⟨rfl, rfl, rfl, rfl, (hL m.pendingList).1, (hL m.pendingList).2.1, (hL m.pendingList).2.2,
    (hL m.activeList).1, (hL m.activeList).2.1, (hL m.activeList).2.2,
    rfl, rfl, rfl, rfl, rfl, rfl, rfl⟩

/-- Witness for `update_error_frame`: a failure arrives while the user is
typing in input mode. -/
theorem update_error_frame_witness :
    (∀ l : ListModel, (refWidgets.listUpdate l (.error "exit status 1")).1.Items = l.Items ∧
      (refWidgets.listUpdate l (.error "exit status 1")).1.index = l.index ∧
      (refWidgets.listUpdate l (.error "exit status 1")).1.SelectedItem = l.SelectedItem) ∧
    (Update refWidgets typingAbc (.error "exit status 1")).1.InputMode = true ∧
    (Update refWidgets typingAbc (.error "exit status 1")).1.Err = some "exit status 1" ∧
    (Update refWidgets typingAbc (.error "exit status 1")).1.events =
      ["Error: exit status 1"] := by
  obtain ⟨-, hMode, -, -, -, -, -, -, -, -, -, -, -, -, -, hErr, hEvents⟩ :=
    update_error_frame refWidgets typingAbc "exit status 1" (fun _ => ⟨rfl, rfl, rfl⟩)
  exact ⟨fun _ => ⟨rfl, rfl, rfl⟩, hMode, hErr, hEvents⟩

/-- C4: after folding a fetch result `TaskLoadMsg ts`, the pending list holds
one item per task of `ts` with status "pending", in snapshot order, titled
"#<id> <agent>"; the active list holds one item per task with status
"in_progress" or "failed", in snapshot order, titled "#<id> <agent>" with the
tag "[FAILED] " in front exactly when the status is "failed"; every item
carries the description of its task; tasks of another status are in neither
list.  The list widget's own `Update` is assumed not to change the items. -/
theorem update_taskLoad_projections (W : Widgets) (m : MainModel) (ts : List Task)
    (hL : ∀ l : ListModel, (W.listUpdate l (.taskLoad ts)).1.Items = l.Items) :
    (Update W m (.taskLoad ts)).1.pendingList.Items =
      (ts.filter (fun t => t.Status = "pending")).map
        (fun t => { title := "#" ++ fmtD t.ID ++ " " ++ t.Agent, desc := t.Description }) ∧
    (Update W m (.taskLoad ts)).1.activeList.Items =
      (ts.filter (fun t => t.Status = "in_progress" ∨ t.Status = "failed")).map
        (fun t => {
          title := ((if t.Status = "failed" then "[FAILED] " else "") ++ "#" ++ fmtD t.ID ++
            " " ++ t.Agent)
          desc := t.Description }) := by
  constructor
  · show (W.listUpdate (m.pendingList.SetItems (tasksToItems ts ["pending"]))
        (.taskLoad ts)).1.Items = _
    rw [hL, tasksToItems_eq]
    show ((ts.filter (fun t => statusMatch t ["pending"])).map _ : List Item) = _
    simp only [statusMatch_pending]
    apply List.map_congr_left
    intro t ht
    have hp : t.Status = "pending" := by simpa using (List.mem_filter.mp ht).2
    rw [taskTitle_not_failed t (by rw [hp]; decide)]
  · show (W.listUpdate (m.activeList.SetItems (tasksToItems ts ["in_progress", "failed"]))
        (.taskLoad ts)).1.Items = _
    rw [hL, tasksToItems_eq]
    show ((ts.filter (fun t => statusMatch t ["in_progress", "failed"])).map _ : List Item) = _
    simp only [statusMatch_active]
    rfl

/-- Witness for `update_taskLoad_projections`: the snapshot `sampleTasks`
folded into the initial state. -/
theorem update_taskLoad_projections_witness :
    (∀ l : ListModel, (refWidgets.listUpdate l (.taskLoad sampleTasks)).1.Items = l.Items) ∧
    (Update refWidgets InitialModel (.taskLoad sampleTasks)).1.pendingList.Items =
      (sampleTasks.filter (fun t => t.Status = "pending")).map
        (fun t => { title := "#" ++ fmtD t.ID ++ " " ++ t.Agent, desc := t.Description }) ∧
    (Update refWidgets InitialModel (.taskLoad sampleTasks)).1.activeList.Items =
      (sampleTasks.filter (fun t => t.Status = "in_progress" ∨ t.Status = "failed")).map
        (fun t => {
          title := ((if t.Status = "failed" then "[FAILED] " else "") ++ "#" ++ fmtD t.ID ++
            " " ++ t.Agent)
          desc := t.Description }) :=
  ⟨fun _ => rfl, update_taskLoad_projections refWidgets InitialModel sampleTasks (fun _ => rfl)⟩

/-- The projections of `sampleTasks`, evaluated. -/
theorem loadedModel_lists :
    loadedModel.pendingList.Items = [{ title := "#1 ", desc := "Write docs" }] ∧
    loadedModel.activeList.Items =
      [{ title := "#2 builder", desc := "Build API" },
       { title := "[FAILED] #3 ops", desc := "Deploy" }] := by
  decide

/-! ## Confirming input -/

/-- C5: in input mode with a non-empty buffer `t`, Enter prepends exactly the
event "Adding task: t..." to the event log, returns exactly one command, the
add command with description `t` (whose invocation passes `t` unmodified as
the argument after the verb `add`), clears the buffer and leaves input mode. -/
theorem update_enter_adds_task (W : Widgets) (m : MainModel) (t : String)
    (hI : m.InputMode = true) (hV : m.Input.Value = t) (ht : t ≠ "") :
    (Update W m keyEnter).1.events = ("Adding task: " ++ t ++ "...") :: m.events ∧
    (Update W m keyEnter).2 = [Cmd.AddTaskCmd t] ∧
    (∀ scriptPath : String,
      (Cmd.AddTaskCmd t).argv scriptPath = some ["bash", scriptPath, "add", t]) ∧
    (Update W m keyEnter).1.Input.Value = "" ∧
    (Update W m keyEnter).1.InputMode = false := by
  subst hV
  have h : Update W m keyEnter =
      leaveInput { m with events := ("Adding task: " ++ m.Input.Value ++ "...") :: m.events }
        [some (Cmd.AddTaskCmd m.Input.Value)] := by
    unfold keyEnter
    rw [update_input_key W m _ hI (by decide)]
    unfold updateInputKey
    rw [if_pos rfl, if_pos ht]
  rw [h]
  refine ⟨rfl, rfl, fun _ => rfl, ?_, rfl⟩
  simp [leaveInput, TextInput.SetValue, TextInput.Blur, TextInput.Value]

/-- Witness for `update_enter_adds_task`: the buffer "Integration Test Task". -/
theorem update_enter_adds_task_witness :
    typingTask.InputMode = true ∧ typingTask.Input.Value = "Integration Test Task" ∧
    "Integration Test Task" ≠ "" ∧
    (Update refWidgets typingTask keyEnter).1.events =
      ("Adding task: " ++ "Integration Test Task" ++ "...") :: typingTask.events ∧
    (Update refWidgets typingTask keyEnter).2 = [Cmd.AddTaskCmd "Integration Test Task"] ∧
    (∀ scriptPath : String, (Cmd.AddTaskCmd "Integration Test Task").argv scriptPath =
      some ["bash", scriptPath, "add", "Integration Test Task"]) ∧
    (Update refWidgets typingTask keyEnter).1.Input.Value = "" ∧
    (Update refWidgets typingTask keyEnter).1.InputMode = false :=
  ⟨rfl, rfl, by decide,
    update_enter_adds_task refWidgets typingTask "Integration Test Task" rfl rfl (by decide)⟩

/-- C6: in input mode with an empty buffer, Enter returns an empty batch (no
add command), leaves the event log unchanged, and returns to normal mode with
the buffer still empty. -/
theorem update_enter_empty (W : Widgets) (m : MainModel)
    (hI : m.InputMode = true) (hV : m.Input.Value = "") :
    (Update W m keyEnter).2 = [] ∧
    (Update W m keyEnter).1.events = m.events ∧
    (Update W m keyEnter).1.InputMode = false ∧
    (Update W m keyEnter).1.Input.Value = "" := by
  have h : Update W m keyEnter = leaveInput m [] := by
    unfold keyEnter
    rw [update_input_key W m _ hI (by decide)]
    unfold updateInputKey
    rw [if_pos rfl, if_neg (fun hne => hne hV)]
  rw [h]
  refine ⟨rfl, rfl, rfl, ?_⟩
  simp [leaveInput, TextInput.SetValue, TextInput.Blur, TextInput.Value]

/-- Witness for `update_enter_empty`: input mode entered and confirmed at once. -/
theorem update_enter_empty_witness :
    typingEmpty.InputMode = true ∧ typingEmpty.Input.Value = "" ∧
    (Update refWidgets typingEmpty keyEnter).2 = [] ∧
    (Update refWidgets typingEmpty keyEnter).1.events = typingEmpty.events ∧
    (Update refWidgets typingEmpty keyEnter).1.InputMode = false ∧
    (Update refWidgets typingEmpty keyEnter).1.Input.Value = "" :=
  ⟨rfl, rfl, update_enter_empty refWidgets typingEmpty rfl rfl⟩

/-! ## The last error -/

/-- C7, as stated, fails: on `erroredModel`, whose `Err` is set, folding a
fetch result leaves `Err` set. -/
theorem taskLoad_does_not_clear_Err :
    erroredModel.Err ≠ none ∧
    ¬ ((Update refWidgets erroredModel (.taskLoad sampleTasks)).1.Err = none) := by
  decide

/-- C7, amended: folding a fetch result `TaskLoadMsg ts` leaves `Err` exactly
as it was; a set error stays set. -/
theorem update_taskLoad_keeps_Err (W : Widgets) (m : MainModel) (ts : List Task) :
    (Update W m (.taskLoad ts)).1.Err = m.Err := rfl

/-! ## The initial state -/

/-- C10, as stated, fails: the lists of `InitialModel` are not empty. -/
theorem initialModel_lists_not_empty :
    ¬ (InitialModel.Tab = 0 ∧ InitialModel.InputMode = false ∧ InitialModel.Err = none ∧
      InitialModel.events = [] ∧ InitialModel.pendingList.Items = [] ∧
      InitialModel.activeList.Items = []) := by
  decide

/-- C10, amended: `InitialModel` has `Tab = 0`, `InputMode = false`, no error,
an empty event log and no snapshot; its pending list holds the two placeholder
items and its active list the one placeholder item written in `InitialModel`,
and no placeholder title scans to a task id. -/
theorem initialModel_state :
    InitialModel.Tab = 0 ∧ InitialModel.InputMode = false ∧ InitialModel.Err = none ∧
    InitialModel.events = [] ∧ InitialModel.Tasks = [] ∧ InitialModel.Loaded = false ∧
    InitialModel.pendingList.Items =
      [{ title := "Fix TUI Layout", desc := "Resolve ncurses resizing issues" },
       { title := "Add Auth Logic", desc := "Integrate Supabase Auth" }] ∧
    InitialModel.activeList.Items = [{ title := "Refactor API", desc := "Optimize RPC calls" }] ∧
    (∀ it ∈ InitialModel.pendingList.Items ++ InitialModel.activeList.Items,
      sscanfID it.title = 0) := by
  decide

theorem dispatchSelected_selected (m : MainModel) (l : ListModel) (label : String)
    (mk : Int → Cmd) (it : Item) (hne : 0 < l.Items.length) (hSel : l.SelectedItem = some it)
    (hpos : 0 < sscanfID it.title) :
    dispatchSelected m l label mk =
      ({ m with events := (label ++ fmtD (sscanfID it.title) ++ "...") :: m.events },
        [some (mk (sscanfID it.title))]) := by
  unfold dispatchSelected
  rw [if_pos hne, hSel]
  dsimp only
  rw [if_pos hpos]

theorem dispatchSelected_unparsed (m : MainModel) (l : ListModel) (label : String)
    (mk : Int → Cmd) (it : Item) (hSel : l.SelectedItem = some it)
    (hid : sscanfID it.title = 0) : dispatchSelected m l label mk = (m, []) := by
  unfold dispatchSelected
  rw [hSel]
  dsimp only
  rw [hid]
  simp

theorem key_s_step (W : Widgets) (m : MainModel) (hN : m.InputMode = false)
    (hTab : m.Tab = 0) :
    Update W m (keyRune 's') =
      updateLists W (dispatchSelected m m.pendingList "Starting task #" Cmd.StartTaskCmd).1
        (keyRune 's') (dispatchSelected m m.pendingList "Starting task #" Cmd.StartTaskCmd).2 := by
  unfold keyRune
  rw [update_normal_key W m _ hN (by decide) (by decide)]
  unfold updateNormalKey
  rw [show KeyMsg.String { Type_ := .KeyRunes, Runes := ['s'] } = "s" from rfl]
  simp [hTab]

theorem key_c_step (W : Widgets) (m : MainModel) (hN : m.InputMode = false)
    (hTab : m.Tab = 1) :
    Update W m (keyRune 'c') =
      updateLists W (dispatchSelected m m.activeList "Completing task #" Cmd.CompleteTaskCmd).1
        (keyRune 'c')
        (dispatchSelected m m.activeList "Completing task #" Cmd.CompleteTaskCmd).2 := by
  unfold keyRune
  rw [update_normal_key W m _ hN (by decide) (by decide)]
  unfold updateNormalKey
  rw [show KeyMsg.String { Type_ := .KeyRunes, Runes := ['c'] } = "c" from rfl]
  simp [hTab]

theorem key_x_step (W : Widgets) (m : MainModel) (hN : m.InputMode = false)
    (hTab : m.Tab = 1) :
    Update W m (keyRune 'x') =
      updateLists W (dispatchSelected m m.activeList "Stopping task #" Cmd.StopTaskCmd).1
        (keyRune 'x') (dispatchSelected m m.activeList "Stopping task #" Cmd.StopTaskCmd).2 := by
  unfold keyRune
  rw [update_normal_key W m _ hN (by decide) (by decide)]
  unfold updateNormalKey
  rw [show KeyMsg.String { Type_ := .KeyRunes, Runes := ['x'] } = "x" from rfl]
  simp [hTab]

theorem key_d_step_active (W : Widgets) (m : MainModel) (hN : m.InputMode = false)
    (hTab : m.Tab = 1) :
    Update W m (keyRune 'd') =
      updateLists W (dispatchSelected m m.activeList "Removing task #" Cmd.RemoveTaskCmd).1
        (keyRune 'd') (dispatchSelected m m.activeList "Removing task #" Cmd.RemoveTaskCmd).2 := by
  unfold keyRune
  rw [update_normal_key W m _ hN (by decide) (by decide)]
  unfold updateNormalKey
  rw [show KeyMsg.String { Type_ := .KeyRunes, Runes := ['d'] } = "d" from rfl]
  simp [hTab]

theorem tasksToItems_ne_nil (ts : List Task) (statuses : List String) (t : Task) (ht : t ∈ ts)
    (hS : statusMatch t statuses = true) : 0 < (tasksToItems ts statuses).length := by
  rw [tasksToItems_eq, List.length_map]
  exact List.length_pos_of_mem (List.mem_filter.mpr ⟨ht, hS⟩)

theorem tasksToItems_single (t : Task) (statuses : List String)
    (hS : statusMatch t statuses = true) :
    tasksToItems [t] statuses = [{ title := taskTitle t, desc := t.Description }] := by
  simp [tasksToItems, hS]
/-! ## Acting on the selected task -/

/-- C9: for a snapshot `ts` and a task `t` of it with status "pending" and an
id in `(0, 2^63)` (a positive Go `int`): when the pending list holds the
projection of `ts`, its selected item is the item `tasksToItems` builds for
`t`, `Tab` is 0 and the mode is normal, the key `s` scans the id of `t` back
from the title (whatever the agent text), prepends exactly the event
"Starting task #<id>..." and returns the start command for that id (whose
invocation passes the id after the verb `start`), followed only by what the
two list widgets return themselves. -/
theorem update_start_selected (W : Widgets) (m : MainModel) (ts : List Task) (t : Task)
    (it : Item) (ht : t ∈ ts) (hS : t.Status = "pending") (h0 : 0 < t.ID)
    (h1 : t.ID < 2 ^ 63) (hN : m.InputMode = false) (hTab : m.Tab = 0)
    (hItems : m.pendingList.Items = tasksToItems ts ["pending"])
    (hIt : tasksToItems [t] ["pending"] = [it])
    (hSel : m.pendingList.SelectedItem = some it) :
    sscanfID it.title = t.ID ∧
    (Update W m (keyRune 's')).1.events =
      ("Starting task #" ++ fmtD t.ID ++ "...") :: m.events ∧
    (Update W m (keyRune 's')).2 =
      Cmd.StartTaskCmd t.ID ::
        Batch [(W.listUpdate m.pendingList (keyRune 's')).2,
          (W.listUpdate m.activeList (keyRune 's')).2] ∧
    (∀ scriptPath : String,
      (Cmd.StartTaskCmd t.ID).argv scriptPath = some ["bash", scriptPath, "start", fmtD t.ID]) := by
  have hM : statusMatch t ["pending"] = true := by rw [statusMatch_pending]; simpa using hS
  have hitem : it = { title := taskTitle t, desc := t.Description } := by
    rw [tasksToItems_single t _ hM] at hIt
    exact (List.cons.inj hIt).1.symm
  have hid : sscanfID it.title = t.ID := by
    rw [hitem]
    show sscanfID (taskTitle t) = t.ID
    rw [taskTitle_not_failed t (by rw [hS]; decide)]
    exact sscanfID_format t.ID t.Agent h0 h1
  have hne : 0 < m.pendingList.Items.length := by
    rw [hItems]; exact tasksToItems_ne_nil ts _ t ht hM
  have hD := dispatchSelected_selected m m.pendingList "Starting task #" Cmd.StartTaskCmd it hne
    hSel (by rw [hid]; exact h0)
  rw [hid] at hD
  rw [key_s_step W m hN hTab, hD]
  exact ⟨hid, rfl, rfl, fun _ => rfl⟩

/-- Witness for `update_start_selected`: the pending task of `sampleTasks`,
whose agent is still empty, selected in `loadedModel`. -/
theorem update_start_selected_witness :
    (pendingSample ∈ sampleTasks ∧ pendingSample.Status = "pending" ∧ 0 < pendingSample.ID ∧
      pendingSample.ID < 2 ^ 63 ∧ loadedModel.InputMode = false ∧ loadedModel.Tab = 0 ∧
      loadedModel.pendingList.Items = tasksToItems sampleTasks ["pending"] ∧
      tasksToItems [pendingSample] ["pending"] = [{ title := "#1 ", desc := "Write docs" }] ∧
      loadedModel.pendingList.SelectedItem = some { title := "#1 ", desc := "Write docs" }) ∧
    sscanfID "#1 " = pendingSample.ID ∧
    (Update refWidgets loadedModel (keyRune 's')).1.events =
      ("Starting task #" ++ fmtD pendingSample.ID ++ "...") :: loadedModel.events ∧
    (Update refWidgets loadedModel (keyRune 's')).2 =
      Cmd.StartTaskCmd pendingSample.ID ::
        Batch [(refWidgets.listUpdate loadedModel.pendingList (keyRune 's')).2,
          (refWidgets.listUpdate loadedModel.activeList (keyRune 's')).2] ∧
    (∀ scriptPath : String, (Cmd.StartTaskCmd pendingSample.ID).argv scriptPath =
      some ["bash", scriptPath, "start", fmtD pendingSample.ID]) :=
  ⟨by decide,
    update_start_selected refWidgets loadedModel sampleTasks pendingSample
      { title := "#1 ", desc := "Write docs" }
      (by decide) (by decide) (by decide) (by decide) (by decide) (by decide) (by decide)
      (by decide) (by decide)⟩

/-- The part of C8 that holds: with an in-progress task of the snapshot
selected on the Active tab in normal mode, the keys `c`, `x` and `d` scan its
id back and return the complete, stop and remove command for it. -/
theorem update_active_keys_in_progress (W : Widgets) (m : MainModel) (ts : List Task)
    (t : Task) (it : Item) (ht : t ∈ ts) (hS : t.Status = "in_progress") (h0 : 0 < t.ID)
    (h1 : t.ID < 2 ^ 63) (hN : m.InputMode = false) (hTab : m.Tab = 1)
    (hItems : m.activeList.Items = tasksToItems ts ["in_progress", "failed"])
    (hIt : tasksToItems [t] ["in_progress", "failed"] = [it])
    (hSel : m.activeList.SelectedItem = some it) :
    sscanfID it.title = t.ID ∧
    (Update W m (keyRune 'c')).1.events =
      ("Completing task #" ++ fmtD t.ID ++ "...") :: m.events ∧
    (Update W m (keyRune 'c')).2 =
      Cmd.CompleteTaskCmd t.ID ::
        Batch [(W.listUpdate m.pendingList (keyRune 'c')).2,
          (W.listUpdate m.activeList (keyRune 'c')).2] ∧
    (Update W m (keyRune 'x')).1.events =
      ("Stopping task #" ++ fmtD t.ID ++ "...") :: m.events ∧
    (Update W m (keyRune 'x')).2 =
      Cmd.StopTaskCmd t.ID ::
        Batch [(W.listUpdate m.pendingList (keyRune 'x')).2,
          (W.listUpdate m.activeList (keyRune 'x')).2] ∧
    (Update W m (keyRune 'd')).1.events =
      ("Removing task #" ++ fmtD t.ID ++ "...") :: m.events ∧
    (Update W m (keyRune 'd')).2 =
      Cmd.RemoveTaskCmd t.ID ::
        Batch [(W.listUpdate m.pendingList (keyRune 'd')).2,
          (W.listUpdate m.activeList (keyRune 'd')).2] := by
  have hM : statusMatch t ["in_progress", "failed"] = true := by
    rw [statusMatch_active]; simp [hS]
  have hitem : it = { title := taskTitle t, desc := t.Description } := by
    rw [tasksToItems_single t _ hM] at hIt
    exact (List.cons.inj hIt).1.symm
  have hid : sscanfID it.title = t.ID := by
    rw [hitem]
    show sscanfID (taskTitle t) = t.ID
    rw [taskTitle_not_failed t (by rw [hS]; decide)]
    exact sscanfID_format t.ID t.Agent h0 h1
  have hne : 0 < m.activeList.Items.length := by
    rw [hItems]; exact tasksToItems_ne_nil ts _ t ht hM
  have hD := fun (label : String) (mk : Int → Cmd) =>
    dispatchSelected_selected m m.activeList label mk it hne hSel (by rw [hid]; exact h0)
  rw [hid] at hD
  rw [key_c_step W m hN hTab, key_x_step W m hN hTab, key_d_step_active W m hN hTab,
    hD, hD, hD]
  exact ⟨hid, rfl, rfl, rfl, rfl, rfl, rfl⟩

/-- C8 at a failed task: the title `tasksToItems` gives a failed task starts
with the tag "[FAILED] ", so the scan with `#%d` yields 0 for every id and
agent.  In `failedSelected` the failed task #3 of `sampleTasks` is the
selected item of the active list on the Active tab in normal mode, and the
keys `c`, `x` and `d` change nothing and return no command. -/
theorem update_active_keys_on_failed (id : Int) (desc agent prio : String) :
    sscanfID (taskTitle
      { ID := id, Description := desc, Status := "failed", Agent := agent, Priority := prio })
      = 0 ∧
    tasksToItems
      [{ ID := 3, Description := "Deploy", Status := "failed", Agent := "ops", Priority := "high" }]
      ["in_progress", "failed"] = [{ title := "[FAILED] #3 ops", desc := "Deploy" }] ∧
    failedSelected.activeList.Items = tasksToItems sampleTasks ["in_progress", "failed"] ∧
    failedSelected.activeList.SelectedItem = some { title := "[FAILED] #3 ops", desc := "Deploy" } ∧
    failedSelected.Tab = 1 ∧ failedSelected.InputMode = false ∧
    Update refWidgets failedSelected (keyRune 'c') = (failedSelected, []) ∧
    Update refWidgets failedSelected (keyRune 'x') = (failedSelected, []) ∧
    Update refWidgets failedSelected (keyRune 'd') = (failedSelected, []) := by
  refine ⟨?_, by decide, by decide, by decide, by decide, by decide, by decide, by decide,
    by decide⟩
  rw [taskTitle_failed _ rfl]
  exact sscanfID_failed_tag _

/-! ## Keys in input mode -/

theorem Batch_singleton (c : Option Cmd) : Batch [c] = c.toList := by
  cases c <;> rfl

/-- C11: in input mode a key other than Enter and Esc, shortcut keys included,
is only handed to the text field: the new model is the old one with the
field's `Update` applied to the input, so `InputMode` stays true and `Tab`,
`Quitting`, the event log and both lists are unchanged; the returned batch
holds nothing but the command the text field itself returned, hence no task
command, fetch, log viewer or quit as long as the text field returns none. -/
theorem update_input_forwards_key (W : Widgets) (m : MainModel) (k : KeyMsg)
    (hI : m.InputMode = true) (hEnter : k.Type_ ≠ .KeyEnter) (hEsc : k.Type_ ≠ .KeyEsc) :
    (Update W m (.key k)).1 = { m with Input := (W.inputUpdate m.Input (.key k)).1 } ∧
    (Update W m (.key k)).1.InputMode = true ∧
    (Update W m (.key k)).1.Tab = m.Tab ∧
    (Update W m (.key k)).1.Quitting = m.Quitting ∧
    (Update W m (.key k)).1.events = m.events ∧
    (Update W m (.key k)).1.pendingList = m.pendingList ∧
    (Update W m (.key k)).1.activeList = m.activeList ∧
    (Update W m (.key k)).2 = (W.inputUpdate m.Input (.key k)).2.toList ∧
    ((∀ c : Cmd, (W.inputUpdate m.Input (.key k)).2 = some c → c.isProgramCmd = false) →
      ∀ c ∈ (Update W m (.key k)).2, c.isProgramCmd = false) := by
  have h : Update W m (.key k) =
      ({ m with Input := (W.inputUpdate m.Input (.key k)).1 },
        (W.inputUpdate m.Input (.key k)).2.toList) := by
    rw [update_input_key W m k hI hEsc]
    unfold updateInputKey
    rw [if_neg hEnter]
    dsimp only
    rw [Batch_singleton]
  rw [h]
  refine ⟨rfl, hI, rfl, rfl, rfl, rfl, rfl, rfl, ?_⟩
  intro hW c hc
  exact hW c (Option.mem_toList.mp hc)

/-- Witness for `update_input_forwards_key`: the key `q` typed into the
buffer "abc". -/
theorem update_input_forwards_key_witness :
    (typingAbc.InputMode = true ∧
      ({ Type_ := .KeyRunes, Runes := ['q'] } : KeyMsg).Type_ ≠ .KeyEnter ∧
      ({ Type_ := .KeyRunes, Runes := ['q'] } : KeyMsg).Type_ ≠ .KeyEsc) ∧
    (Update refWidgets typingAbc (keyRune 'q')).1.InputMode = true ∧
    (Update refWidgets typingAbc (keyRune 'q')).1.Quitting = false ∧
    (Update refWidgets typingAbc (keyRune 'q')).1.Input.Value = "abcq" ∧
    (Update refWidgets typingAbc (keyRune 'q')).2 = [] := by
  obtain ⟨hM, hMode, -, hQ, -, -, -, hC, -⟩ :=
    update_input_forwards_key refWidgets typingAbc { Type_ := .KeyRunes, Runes := ['q'] }
      rfl (by decide) (by decide)
  refine ⟨⟨rfl, by decide, by decide⟩, hMode, hQ, ?_, hC⟩
  show (Update refWidgets typingAbc (.key { Type_ := .KeyRunes, Runes := ['q'] })).1.Input.Value
    = "abcq"
  rw [hM]
  decide

/-! ## The event log and the stored snapshot -/

theorem dispatchSelected_events (m : MainModel) (l : ListModel) (label : String)
    (mk : Int → Cmd) :
    (dispatchSelected m l label mk).1.events = m.events ∨
      ∃ e : String, (dispatchSelected m l label mk).1.events = e :: m.events := by
  unfold dispatchSelected
  refine ite_ind (fun r : MainModel × List (Option Cmd) => r.1.events = m.events ∨
      ∃ e : String, r.1.events = e :: m.events) _ _ _ (fun _ => ?_) (fun _ => Or.inl rfl)
  cases l.SelectedItem with
  | none => exact Or.inl rfl
  | some it =>
    dsimp only
    refine ite_ind (fun r : MainModel × List (Option Cmd) => r.1.events = m.events ∨
      ∃ e : String, r.1.events = e :: m.events) _ _ _ (fun _ => Or.inr ⟨_, rfl⟩)
      (fun _ => Or.inl rfl)

theorem updateNormalKey_events (W : Widgets) (m : MainModel) (k : KeyMsg) :
    (updateNormalKey W m k).1.events = m.events ∨
      ∃ e : String, (updateNormalKey W m k).1.events = e :: m.events := by
  unfold updateNormalKey
  dsimp only
  generalize k.String = s
  repeat' refine ite_ind (fun r : MainModel × List Cmd => r.1.events = m.events ∨
      ∃ e : String, r.1.events = e :: m.events) _ _ _ (fun _ => ?_) (fun _ => ?_)
  all_goals first
    | exact Or.inl rfl
    | exact Or.inr ⟨_, rfl⟩
    | exact dispatchSelected_events _ _ _ _

theorem updateInputKey_events (W : Widgets) (m : MainModel) (k : KeyMsg) :
    (updateInputKey W m k).1.events = m.events ∨
      ∃ e : String, (updateInputKey W m k).1.events = e :: m.events := by
  unfold updateInputKey leaveInput
  dsimp only
  repeat' refine ite_ind (fun r : MainModel × List Cmd => r.1.events = m.events ∨
      ∃ e : String, r.1.events = e :: m.events) _ _ _ (fun _ => ?_) (fun _ => ?_)
  all_goals first
    | exact Or.inl rfl
    | exact Or.inr ⟨_, rfl⟩

/-- C15: the event log is append-only and newest-first: for every state and
every message, the log after `Update` is the log before, or the log before
with exactly one new entry in front. -/
theorem update_events_append_only (W : Widgets) (m : MainModel) (msg : Msg) :
    (Update W m msg).1.events = m.events ∨
      ∃ e : String, (Update W m msg).1.events = e :: m.events := by
  cases msg with
  | key k =>
    unfold Update
    dsimp only
    split_ifs
    · exact Or.inl rfl
    · exact Or.inl rfl
    · exact Or.inl rfl
    · exact Or.inl rfl
    · exact updateInputKey_events W m k
    · exact updateNormalKey_events W m k
  | windowSize w h => exact Or.inl rfl
  | tick t => exact Or.inl rfl
  | taskLoad ts => exact Or.inr ⟨_, rfl⟩
  | error e => exact Or.inr ⟨_, rfl⟩
  | other n => exact Or.inl rfl

theorem updateNormalKey_Tasks (W : Widgets) (m : MainModel) (k : KeyMsg) :
    (updateNormalKey W m k).1.Tasks = m.Tasks := by
  unfold updateNormalKey
  dsimp only
  generalize k.String = s
  repeat' refine ite_ind (fun r : MainModel × List Cmd =>
      r.1.Tasks = m.Tasks) _ _ _ (fun _ => ?_) (fun _ => ?_)
  all_goals first
    | rfl
    | (show (dispatchSelected _ _ _ _).1.Tasks = m.Tasks; rw [dispatchSelected_frame])

theorem updateInputKey_Tasks (W : Widgets) (m : MainModel) (k : KeyMsg) :
    (updateInputKey W m k).1.Tasks = m.Tasks := by
  unfold updateInputKey leaveInput
  dsimp only
  split_ifs <;> rfl

/-- C14, as stated, fails: after the initial state folds the snapshot
`sampleTasks`, the field `Tasks` is still empty. -/
theorem taskLoad_does_not_store_snapshot :
    ¬ ((Update refWidgets InitialModel (.taskLoad sampleTasks)).1.Tasks = sampleTasks ∧
      (Update refWidgets InitialModel (.taskLoad sampleTasks)).1.Loaded = true) := by
  decide

/-- C14, amended: folding a fetch result `TaskLoadMsg ts` sets `Loaded` to
true but does not store the snapshot in the field `Tasks`: afterwards `Tasks`
is what it was before, whatever `ts` is; no message at all changes `Tasks`. -/
theorem update_taskLoad_keeps_Tasks (W : Widgets) (m : MainModel) (ts : List Task) :
    (Update W m (.taskLoad ts)).1.Loaded = true ∧
    (Update W m (.taskLoad ts)).1.Tasks = m.Tasks ∧
    (∀ msg : Msg, (Update W m msg).1.Tasks = m.Tasks) := by
  refine ⟨rfl, rfl, ?_⟩
  intro msg
  cases msg with
  | key k =>
    unfold Update
    dsimp only
    split_ifs
    · rfl
    · rfl
    · rfl
    · rfl
    · exact updateInputKey_Tasks W m k
    · exact updateNormalKey_Tasks W m k
  | _ => rfl

/-! ## Keys whose precondition fails -/

theorem dispatchSelected_unresolved (m : MainModel) (l : ListModel) (label : String)
    (mk : Int → Cmd) (h : l.Unresolved) : dispatchSelected m l label mk = (m, []) := by
  unfold dispatchSelected
  rcases h with h | h
  · rw [if_neg (by rw [h]; decide)]
  · by_cases hlen : 0 < l.Items.length
    · rw [if_pos hlen]
      cases hSel : l.SelectedItem with
      | none => rfl
      | some it =>
        dsimp only
        rw [if_neg (not_lt.mpr (h it hSel))]
    · rw [if_neg hlen]

theorem updateNormalKey_s (W : Widgets) (m : MainModel) (k : KeyMsg) (hs : k.String = "s") :
    updateNormalKey W m k =
      if m.Tab = 0 then
        updateLists W (dispatchSelected m m.pendingList "Starting task #" Cmd.StartTaskCmd).1
          (.key k) (dispatchSelected m m.pendingList "Starting task #" Cmd.StartTaskCmd).2
      else updateLists W m (.key k) [] := by
  unfold updateNormalKey
  rw [hs]
  simp

theorem updateNormalKey_c (W : Widgets) (m : MainModel) (k : KeyMsg) (hs : k.String = "c") :
    updateNormalKey W m k =
      if m.Tab = 1 then
        updateLists W (dispatchSelected m m.activeList "Completing task #" Cmd.CompleteTaskCmd).1
          (.key k) (dispatchSelected m m.activeList "Completing task #" Cmd.CompleteTaskCmd).2
      else updateLists W m (.key k) [] := by
  unfold updateNormalKey
  rw [hs]
  simp

theorem updateNormalKey_x (W : Widgets) (m : MainModel) (k : KeyMsg) (hs : k.String = "x") :
    updateNormalKey W m k =
      if m.Tab = 1 then
        updateLists W (dispatchSelected m m.activeList "Stopping task #" Cmd.StopTaskCmd).1
          (.key k) (dispatchSelected m m.activeList "Stopping task #" Cmd.StopTaskCmd).2
      else updateLists W m (.key k) [] := by
  unfold updateNormalKey
  rw [hs]
  simp

theorem updateNormalKey_d (W : Widgets) (m : MainModel) (k : KeyMsg)
    (hs : k.String = "d" ∨ k.String = "backspace") :
    updateNormalKey W m k =
      if m.Tab = 0 then
        updateLists W (dispatchSelected m m.pendingList "Removing task #" Cmd.RemoveTaskCmd).1
          (.key k) (dispatchSelected m m.pendingList "Removing task #" Cmd.RemoveTaskCmd).2
      else if m.Tab = 1 then
        updateLists W (dispatchSelected m m.activeList "Removing task #" Cmd.RemoveTaskCmd).1
          (.key k) (dispatchSelected m m.activeList "Removing task #" Cmd.RemoveTaskCmd).2
      else updateLists W m (.key k) [] := by
  unfold updateNormalKey
  rcases hs with hs | hs <;> rw [hs] <;> simp

theorem silent_of_eq (W : Widgets) (m : MainModel) (msg : Msg)
    (h : Update W m msg = updateLists W m msg []) : Silent W m msg := by
  unfold Silent
  rw [h]
  exact ⟨rfl, rfl, rfl⟩

/-- C13: in normal mode, when the precondition of an action key does not hold
(the tab is not the one the key acts on, or the list of that tab has no items,
no selected item, or a selected item whose title does not scan to an id
greater than 0), the key is handled silently: no event is prepended, `Err` is
unchanged and the batch holds no command of the program, only what the two
list widgets return themselves.  This is so for `s` (Pending tab), `c` and `x`
(Active tab), and `d` and Backspace (the list of the current tab). -/
theorem update_action_keys_silent (W : Widgets) (m : MainModel) (hN : m.InputMode = false) :
    ((m.Tab ≠ 0 ∨ m.pendingList.Unresolved) → Silent W m (keyRune 's')) ∧
    ((m.Tab ≠ 1 ∨ m.activeList.Unresolved) → Silent W m (keyRune 'c')) ∧
    ((m.Tab ≠ 1 ∨ m.activeList.Unresolved) → Silent W m (keyRune 'x')) ∧
    (((m.Tab ≠ 0 ∧ m.Tab ≠ 1) ∨ (m.Tab = 0 ∧ m.pendingList.Unresolved) ∨
        (m.Tab = 1 ∧ m.activeList.Unresolved)) →
      Silent W m (keyRune 'd') ∧ Silent W m keyBackspace) := by
  refine ⟨?_, ?_, ?_, ?_⟩
  · intro h
    apply silent_of_eq
    unfold keyRune
    rw [update_normal_key W m _ hN (by decide) (by decide), 
      updateNormalKey_s W m { Type_ := .KeyRunes, Runes := ['s'] } rfl]
    rcases h with h | h
    · rw [if_neg h]
    · rw [dispatchSelected_unresolved m _ _ _ h]; simp
  · intro h
    apply silent_of_eq
    unfold keyRune
    rw [update_normal_key W m _ hN (by decide) (by decide), 
      updateNormalKey_c W m { Type_ := .KeyRunes, Runes := ['c'] } rfl]
    rcases h with h | h
    · rw [if_neg h]
    · rw [dispatchSelected_unresolved m _ _ _ h]; simp
  · intro h
    apply silent_of_eq
    unfold keyRune
    rw [update_normal_key W m _ hN (by decide) (by decide), 
      updateNormalKey_x W m { Type_ := .KeyRunes, Runes := ['x'] } rfl]
    rcases h with h | h
    · rw [if_neg h]
    · rw [dispatchSelected_unresolved m _ _ _ h]; simp
  · intro h
    constructor
    · apply silent_of_eq
      unfold keyRune
      rw [update_normal_key W m _ hN (by decide) (by decide),
        updateNormalKey_d W m { Type_ := .KeyRunes, Runes := ['d'] } (Or.inl rfl)]
      rcases h with ⟨h0, h1⟩ | ⟨h0, h⟩ | ⟨h1, h⟩
      · rw [if_neg h0, if_neg h1]
      · rw [if_pos h0, dispatchSelected_unresolved m _ _ _ h]
      · rw [if_neg (by omega), if_pos h1, dispatchSelected_unresolved m _ _ _ h]
    · apply silent_of_eq
      unfold keyBackspace
      rw [update_normal_key W m _ hN (by decide) (by decide),
        updateNormalKey_d W m { Type_ := .KeyBackspace } (Or.inr rfl)]
      rcases h with ⟨h0, h1⟩ | ⟨h0, h⟩ | ⟨h1, h⟩
      · rw [if_neg h0, if_neg h1]
      · rw [if_pos h0, dispatchSelected_unresolved m _ _ _ h]
      · rw [if_neg (by omega), if_pos h1, dispatchSelected_unresolved m _ _ _ h]

/-- The placeholder item under the cursor of the initial pending list does
not scan to an id. -/
theorem initialModel_pending_unresolved : InitialModel.pendingList.Unresolved := by
  refine Or.inr (fun it h => ?_)
  have hSel : InitialModel.pendingList.SelectedItem =
      some { title := "Fix TUI Layout", desc := "Resolve ncurses resizing issues" } := rfl
  rw [hSel] at h
  rw [← Option.some.inj h]
  decide

/-- Witness for `update_action_keys_silent`: the key `s` on the initial
state, whose selected pending item is the placeholder "Fix TUI Layout". -/
theorem update_action_keys_silent_witness :
    InitialModel.InputMode = false ∧
    InitialModel.pendingList.SelectedItem =
      some { title := "Fix TUI Layout", desc := "Resolve ncurses resizing issues" } ∧
    (InitialModel.Tab ≠ 0 ∨ InitialModel.pendingList.Unresolved) ∧
    Silent refWidgets InitialModel (keyRune 's') ∧
    Update refWidgets InitialModel (keyRune 's') = (InitialModel, []) :=
  ⟨rfl, rfl, Or.inr initialModel_pending_unresolved,
    (update_action_keys_silent refWidgets InitialModel rfl).1
      (Or.inr initialModel_pending_unresolved),
    by decide⟩

/-! ## The command gateway -/

theorem findScriptPath_calls {σ : Type} (S : System σ) (w : σ) (p : String) :
    SysCall.readFile p ∉ (findScriptPath S w).2 := by
  unfold findScriptPath
  split_ifs <;> simp

/-- C12: running one of the five mutating gateway commands on any system
state and for any outcome of the invocation returns one message.  The command
invokes `bash <script> <verb> <argument>`.  If the invocation fails with
error `err` and combined output `out`, the message is the `ErrorMsg` with the
text "<verb> task failed: err", a newline, "Output: out", and no file is read
(no fetch).  If it succeeds, the message is the one `FetchTasksCmd` returns
when run on the system state the invocation left behind. -/
theorem mutating_cmd_result {σ : Type} (S : System σ) (w : σ) (c : Cmd)
    (hc : c.isMutating = true) :
    ∃ argv : List String, c.argv (findScriptPath S w).1 = some argv ∧
      (∀ err : String, (S.combinedOutput w argv c.extraEnv).2.2 = some err →
        c.run S w = some ((S.combinedOutput w argv c.extraEnv).1,
          Msg.error (c.failure ++ ": " ++ err ++ "\nOutput: " ++
            (S.combinedOutput w argv c.extraEnv).2.1),
          (findScriptPath S w).2 ++ [SysCall.exec argv c.extraEnv]) ∧
        ∀ p : String,
          SysCall.readFile p ∉ (findScriptPath S w).2 ++ [SysCall.exec argv c.extraEnv]) ∧
      ((S.combinedOutput w argv c.extraEnv).2.2 = none →
        c.run S w = some ((S.combinedOutput w argv c.extraEnv).1,
          (runFetchTasksCmd S (S.combinedOutput w argv c.extraEnv).1).1,
          (findScriptPath S w).2 ++ [SysCall.exec argv c.extraEnv] ++
            (runFetchTasksCmd S (S.combinedOutput w argv c.extraEnv).1).2)) := by
  have key : ∀ argv : List String, c.argv (findScriptPath S w).1 = some argv →
      c ≠ Cmd.FetchTasksCmd →
      c.run S w =
        match (S.combinedOutput w argv c.extraEnv).2.2 with
        | some err =>
          some ((S.combinedOutput w argv c.extraEnv).1,
            Msg.error (c.failure ++ ": " ++ err ++ "\nOutput: " ++
              (S.combinedOutput w argv c.extraEnv).2.1),
            (findScriptPath S w).2 ++ [SysCall.exec argv c.extraEnv])
        | none =>
          some ((S.combinedOutput w argv c.extraEnv).1,
            (runFetchTasksCmd S (S.combinedOutput w argv c.extraEnv).1).1,
            (findScriptPath S w).2 ++ [SysCall.exec argv c.extraEnv] ++
              (runFetchTasksCmd S (S.combinedOutput w argv c.extraEnv).1).2) := by
    intro argv hargv hne
    cases c <;> first | exact absurd rfl hne | (simp only [Cmd.run, hargv])
  have hmem : ∀ (argv : List String) (p : String),
      SysCall.readFile p ∉ (findScriptPath S w).2 ++ [SysCall.exec argv c.extraEnv] := by
    intro argv p hp
    rcases List.mem_append.mp hp with h | h
    · exact findScriptPath_calls S w p h
    · simp at h
  have hargv : ∃ argv : List String, c.argv (findScriptPath S w).1 = some argv ∧
      c ≠ Cmd.FetchTasksCmd := by
    cases c <;> first | exact absurd hc Bool.false_ne_true | exact ⟨_, rfl, by simp⟩
  obtain ⟨argv, h1, hne⟩ := hargv
  refine ⟨argv, h1, ?_, ?_⟩
  · intro err herr
    refine ⟨?_, hmem argv⟩
    rw [key argv h1 hne, herr]
  · intro hnone
    rw [key argv h1 hne, hnone]

/-- Witness for `mutating_cmd_result`: on `demoSystem`, starting task 1
succeeds and yields the fetched snapshot of the state afterwards, in which
the task is in progress. -/
theorem mutating_cmd_result_witness :
    (Cmd.StartTaskCmd 1).isMutating = true ∧
    (∃ argv : List String,
      (Cmd.StartTaskCmd 1).argv (findScriptPath demoSystem false).1 = some argv ∧
      (∀ err : String,
        (demoSystem.combinedOutput false argv (Cmd.StartTaskCmd 1).extraEnv).2.2 = some err →
        (Cmd.StartTaskCmd 1).run demoSystem false =
          some ((demoSystem.combinedOutput false argv (Cmd.StartTaskCmd 1).extraEnv).1,
            Msg.error ((Cmd.StartTaskCmd 1).failure ++ ": " ++ err ++ "\nOutput: " ++
              (demoSystem.combinedOutput false argv (Cmd.StartTaskCmd 1).extraEnv).2.1),
            (findScriptPath demoSystem false).2 ++
              [SysCall.exec argv (Cmd.StartTaskCmd 1).extraEnv]) ∧
        ∀ p : String, SysCall.readFile p ∉ (findScriptPath demoSystem false).2 ++
          [SysCall.exec argv (Cmd.StartTaskCmd 1).extraEnv]) ∧
      ((demoSystem.combinedOutput false argv (Cmd.StartTaskCmd 1).extraEnv).2.2 = none →
        (Cmd.StartTaskCmd 1).run demoSystem false =
          some ((demoSystem.combinedOutput false argv (Cmd.StartTaskCmd 1).extraEnv).1,
            (runFetchTasksCmd demoSystem
              (demoSystem.combinedOutput false argv (Cmd.StartTaskCmd 1).extraEnv).1).1,
            (findScriptPath demoSystem false).2 ++
              [SysCall.exec argv (Cmd.StartTaskCmd 1).extraEnv] ++
              (runFetchTasksCmd demoSystem
                (demoSystem.combinedOutput false argv (Cmd.StartTaskCmd 1).extraEnv).1).2))) :=
  ⟨rfl, mutating_cmd_result demoSystem false (Cmd.StartTaskCmd 1) rfl⟩

/-- The two outcomes on `demoSystem`, evaluated: a successful start returns
the snapshot read after the invocation; a failed stop returns the error with
the execution error and the output, and reads no file. -/
theorem demoSystem_runs :
    (Cmd.StartTaskCmd 1).run demoSystem false =
      some (true,
        Msg.taskLoad [{ ID := 1, Description := "Write docs", Status := "in_progress",
                        Agent := "writer", Priority := "high" }],
        [SysCall.stat ".claude/scripts/orchestrator.sh",
         SysCall.exec ["bash", ".claude/scripts/orchestrator.sh", "start", "1"] [],
         SysCall.stat ".claude/tasks.json", SysCall.readFile ".claude/tasks.json"]) ∧
    (Cmd.StopTaskCmd 7).run demoSystem false =
      some (false, Msg.error "stop task failed: exit status 1\nOutput: Task not found",
        [SysCall.stat ".claude/scripts/orchestrator.sh",
         SysCall.exec ["bash", ".claude/scripts/orchestrator.sh", "stop", "7"] []]) := by
  decide

/-! ## The cursor after a reload -/

/-- A reload that shortens a list brings the cursor back into range: with the
cursor on the second placeholder item, folding a snapshot of one pending task
leaves the cursor on that task, and the key `s` starts it. -/
theorem reload_clamps_cursor :
    (Update refWidgets InitialModel keyDown).1.pendingList.index = 1 ∧
    reloadedAfterDown.pendingList.index = 0 ∧
    reloadedAfterDown.pendingList.SelectedItem = some { title := "#1 ", desc := "Write docs" } ∧
    (Update refWidgets reloadedAfterDown (keyRune 's')).2 = [Cmd.StartTaskCmd 1] := by
  decide

/-- The method `SetItems` sets exactly the given items and leaves the cursor
on a visible item whenever one is visible. -/
theorem SetItems_spec (l : ListModel) (i : List Item) :
    (l.SetItems i).Items = i ∧
    ((l.SetItems i).VisibleItems ≠ [] →
      (l.SetItems i).index < (l.SetItems i).VisibleItems.length) := by
  refine ⟨rfl, ?_⟩
  intro h
  have hpos : 0 < (l.SetItems i).VisibleItems.length := List.length_pos.mpr h
  have hvis : (l.SetItems i).VisibleItems =
      ({ l with
          items := i
          filteredItems := if l.filterState ≠ .Unfiltered then [] else l.filteredItems }
        : ListModel).VisibleItems := rfl
  have hidx : (l.SetItems i).index = min l.index ((l.SetItems i).VisibleItems.length - 1) := by
    rw [hvis]; rfl
  rw [hidx]
  omega

end Orchestra
